import Mathlib

/-!
Verification of the OpenEVSE emulator core (`src/emulator/evse.py`,
`src/emulator/ev.py`, `src/emulator/rapi.py`, `src/emulator/serial_port.py`)
against its natural-language specification.

Embedding conventions:
* Python strings are `List Nat` of character ordinals (`ord`), since the
  protocol layer compares and xors ordinals and the transport decodes
  latin-1; string literals are spelled out as ordinal lists in comments.
* Python `float` fields are embedded as `ℚ`.  All claims proved here are
  order/clamping properties (monotone under rounding) or use only exact
  binary arithmetic (`x * 0.5` is exact in IEEE), so the rational model
  is faithful for the statements made.
* Python `int` is `ℤ` (unbounded in CPython), bit flags are `Nat`.
* `time.time()` / `random.uniform` inputs are passed as explicit
  parameters (`now`, `elapsed`, `u`) where the source reads them.
* The per-object `threading.Lock` and the callback list are not data: a
  method body runs under the lock, so each method is a pure state
  transformer; the callback list is modeled by a `has_callbacks` flag plus
  the list of notifications a call fires (in order).
* The LCD display fields (`_lcd_row1/_lcd_row2/_lcd_backlight_color`) and
  their three mutators are omitted from the state: no claim mentions them
  and no modeled operation reads them.
-/

namespace OpenEVSE

/-- `EVSEState` enum from `evse.py` (SAE J1772 states). -/
inductive EVSEState where
  | stateA_notConnected
  | stateB_connected
  | stateC_charging
  | stateD_ventRequired
  | stateSleep
  | stateError
  deriving DecidableEq, Repr

/-- Numeric values of the `EVSEState` `IntEnum`. -/
def EVSEState.val : EVSEState → Nat
  | .stateA_notConnected => 0x01
  | .stateB_connected => 0x02
  | .stateC_charging => 0x03
  | .stateD_ventRequired => 0x04
  | .stateSleep => 0xFD
  | .stateError => 0xFE

/-- `ErrorFlags` enum values from `evse.py`. -/
def GFCI_TRIP : Nat := 0x01
def STUCK_RELAY : Nat := 0x02
def NO_GROUND : Nat := 0x04
def DIODE_CHECK_FAILED : Nat := 0x08
def OVER_TEMPERATURE : Nat := 0x10
def GFI_SELF_TEST_FAILED : Nat := 0x20

/-- Temperature thresholds from `evse.py` (0.1 °C units). -/
def OVER_TEMP_THRESHOLD : ℤ := 650
def AMBIENT_TEMP : ℤ := 200

/-- Python `int(x)` on a rational: truncation toward zero
(`sign(q) * ⌊|q|⌋`, computed from the reduced fraction). -/
def pyTrunc (q : ℚ) : ℤ := Int.sign q.num * ((q.num.natAbs / q.den : ℕ) : ℤ)

/-- State of `EVSEStateMachine` (`evse.py` `__init__`), minus the LCD
fields (see module comment).  `state` is the internal `_state` base state;
the externally observed state is `observedState`. -/
structure EVSE where
  firmware_version : List Nat
  protocol_version : List Nat
  state : EVSEState
  sleep_mode : Bool
  current_capacity_amps : ℤ
  actual_current_amps : ℚ
  voltage_mv : ℤ
  min_capacity_amps : ℤ
  max_hw_capacity_amps : ℤ
  pilot_capacity_amps : ℤ
  max_configured_capacity_amps : ℤ
  max_capacity_locked : Bool
  service_level : List Nat
  temperature_ds : ℤ
  temperature_mcp : ℤ
  session_start_time : ℚ
  session_energy_wh : ℚ
  total_energy_wh : ℚ
  error_flags : Nat
  gfci_count : Nat
  no_ground_count : Nat
  stuck_relay_count : Nat
  gfci_self_test : Bool
  echo_enabled : Bool
  time_limit_minutes : ℤ
  kwh_limit : ℤ
  has_callbacks : Bool
  deriving DecidableEq, Repr

/-- `EVSEStateMachine.__init__` with the default firmware/protocol version
strings `"8.2.1"` / `"5.0.1"`; `has_callbacks` is false (empty list). -/
def initEVSE : EVSE where
  firmware_version := [56, 46, 50, 46, 49]
  protocol_version := [53, 46, 48, 46, 49]
  state := .stateA_notConnected
  sleep_mode := false
  current_capacity_amps := 32
  actual_current_amps := 0
  voltage_mv := 240000
  min_capacity_amps := 6
  max_hw_capacity_amps := 80
  pilot_capacity_amps := 32
  max_configured_capacity_amps := 32
  max_capacity_locked := false
  service_level := [76, 50]        -- "L2"
  temperature_ds := 250
  temperature_mcp := 250
  session_start_time := 0
  session_energy_wh := 0
  total_energy_wh := 0
  error_flags := 0
  gfci_count := 0
  no_ground_count := 0
  stuck_relay_count := 0
  gfci_self_test := true
  echo_enabled := false
  time_limit_minutes := 0
  kwh_limit := 0
  has_callbacks := false

/-- `state` property: observed state is ERROR if any error flag is set,
else SLEEP if sleeping, else the base state. -/
def EVSE.observedState (e : EVSE) : EVSEState :=
  if e.error_flags ≠ 0 then .stateError
  else if e.sleep_mode then .stateSleep
  else e.state

/-- `current_capacity_amps` property setter:
`self._current_capacity_amps = max(6, min(80, value))`. -/
def currentCapacitySetter (e : EVSE) (value : ℤ) : EVSE :=
  { e with current_capacity_amps := max 6 (min 80 value) }

/-- `pilot_capacity_amps` property setter: clamp to
`[min_capacity_amps, max_hw_capacity_amps]`. -/
def pilotCapacitySetter (e : EVSE) (value : ℤ) : EVSE :=
  { e with pilot_capacity_amps :=
        max e.min_capacity_amps (min e.max_hw_capacity_amps value) }

/-- `max_configured_capacity_amps` property setter: clamp to
`[min_capacity_amps, max_hw_capacity_amps]` (note: not guarded by
`_max_capacity_locked`). -/
def maxConfiguredCapacitySetter (e : EVSE) (value : ℤ) : EVSE :=
  { e with max_configured_capacity_amps :=
        max e.min_capacity_amps (min e.max_hw_capacity_amps value) }

/-- `set_current_capacity(amps, volatile)`: clamp to
`[min, min(max_configured, max_hw)]`, store, return `(amps_set == amps,
amps_set)`.  The ignored `volatile` flag is dropped. -/
def set_current_capacity (e : EVSE) (amps : ℤ) : (Bool × ℤ) × EVSE :=
  let allowed_max := min e.max_configured_capacity_amps e.max_hw_capacity_amps
  let amps_set := max e.min_capacity_amps (min allowed_max amps)
  ((decide (amps_set = amps), amps_set),
   { e with current_capacity_amps := amps_set })

/-- `set_max_capacity(amps)`: once-only configuration; returns
`(ok, max_set)` and the new state. -/
def set_max_capacity (e : EVSE) (amps : ℤ) : (Bool × ℤ) × EVSE :=
  if e.max_capacity_locked then
    ((false, e.max_configured_capacity_amps), e)
  else
    let max_set := max e.min_capacity_amps (min e.max_hw_capacity_amps amps)
    let e := { e with max_configured_capacity_amps := max_set,
                      max_capacity_locked := true }
    let e := if e.current_capacity_amps > max_set then
               { e with current_capacity_amps := max_set }
             else e
    ((true, max_set), e)

/-- `service_level` property setter (`"L1"`, `"L2"`, `"Auto"` accepted,
anything else ignored); updates voltage for L1/L2. -/
def serviceLevelSetter (e : EVSE) (value : List Nat) : EVSE :=
  if value = [76, 49] ∨ value = [76, 50] ∨ value = [65, 117, 116, 111] then
    let e := { e with service_level := value }
    if value = [76, 49] then { e with voltage_mv := 120000 }
    else if value = [76, 50] then { e with voltage_mv := 240000 }
    else e
  else e

/-- `echo_enabled` property setter. -/
def echoEnabledSetter (e : EVSE) (value : Bool) : EVSE :=
  { e with echo_enabled := value }

/-- `enable()`: fails if any error flag is set, else clears sleep mode. -/
def EVSE.enable (e : EVSE) : Bool × EVSE :=
  if e.error_flags ≠ 0 then (false, e)
  else (true, { e with sleep_mode := false })

/-- `disable()`: enter sleep mode, zero actual current. -/
def EVSE.disable (e : EVSE) : EVSE :=
  { e with sleep_mode := true, actual_current_amps := 0 }

/-- `reset()`: zero session timer/energy and actual current only. -/
def EVSE.reset (e : EVSE) : EVSE :=
  { e with session_start_time := 0, session_energy_wh := 0,
           actual_current_amps := 0 }

/-- `_trigger_error_internal(flag)`: OR the flag in, bump the matching
counter, zero actual current, and notify `STATE_ERROR` if any callback is
registered.  Returns the new state and the notifications fired. -/
def triggerErrorInternal (e : EVSE) (flag : Nat) : EVSE × List EVSEState :=
  let e := { e with error_flags := e.error_flags ||| flag }
  let e :=
    if flag = GFCI_TRIP then { e with gfci_count := e.gfci_count + 1 }
    else if flag = NO_GROUND then { e with no_ground_count := e.no_ground_count + 1 }
    else if flag = STUCK_RELAY then { e with stuck_relay_count := e.stuck_relay_count + 1 }
    else e
  let e := { e with actual_current_amps := 0 }
  if e.has_callbacks then (e, [.stateError]) else (e, [])

/-- `trigger_error(flag)` public entry point. -/
def EVSE.trigger_error (e : EVSE) (flag : Nat) : EVSE × List EVSEState :=
  triggerErrorInternal e flag

/-- `clear_errors()`: zero the flags; if they were nonzero and callbacks
are registered, notify the recomputed observed state. -/
def EVSE.clear_errors (e : EVSE) : EVSE × List EVSEState :=
  let was_error := e.error_flags ≠ 0
  let e := { e with error_flags := 0 }
  if was_error ∧ e.has_callbacks then
    let new_state := if e.sleep_mode then EVSEState.stateSleep else e.state
    (e, [new_state])
  else (e, [])

/-- `update_state(ev_pilot_state)`: drive the base state from the EV pilot
letter (`"A"`=65, `"B"`=66, `"C"`=67, `"D"`=68); `now` stands for the
`time.time()` read in the C branch.  Returns the new state and the
notifications fired, in order (a DIODE trigger notification from the D
branch precedes the end-of-update notification).  The per-pilot
transition table is factored out as `updateStateBranch`. -/
def updateStateBranch (e : EVSE) (pilot : List Nat) (now : ℚ) :
    EVSE × List EVSEState :=
  if pilot = [65] then          -- "A"
    let e := { e with error_flags := 0, state := .stateA_notConnected,
                      actual_current_amps := 0 }
    let e :=
      if e.session_start_time > 0 then
        { e with total_energy_wh := e.total_energy_wh + e.session_energy_wh,
                 session_start_time := 0, session_energy_wh := 0 }
      else e
    (e, ([] : List EVSEState))
  else if pilot = [66] then     -- "B"
    ({ e with state := .stateB_connected, actual_current_amps := 0 }, [])
  else if pilot = [67] then     -- "C"
    let e :=
      if e.state ≠ .stateC_charging then    -- old_state: _state is unmodified here
        { e with actual_current_amps := (e.current_capacity_amps : ℚ) }
      else e
    let e := { e with state := .stateC_charging }
    let e :=
      if e.session_start_time = 0 then { e with session_start_time := now }
      else e
    (e, [])
  else if pilot = [68] then     -- "D"
    let e := { e with state := .stateD_ventRequired,
                      actual_current_amps := 0 }
    triggerErrorInternal e DIODE_CHECK_FAILED
  else (e, [])

def update_state (e : EVSE) (pilot : List Nat) (now : ℚ) :
    EVSE × List EVSEState :=
  if e.sleep_mode then (e, [])
  else
    let old_state := e.state
    let old_error_flags := e.error_flags
    let r := updateStateBranch e pilot now
    let state_changed :=
      old_state ≠ r.1.state ∨ old_error_flags ≠ r.1.error_flags
    if state_changed ∧ r.1.has_callbacks then
      (r.1, r.2 ++ [r.1.state])
    else (r.1, r.2)

/-- `update_charging(actual_charge_rate_kw, delta_time_sec)`: integrate
current/energy/temperature while the base state is CHARGING, else cool
down.  Returns the new state and any notifications fired by the
over-temperature trigger. -/
def EVSE.update_charging (e : EVSE) (actual_charge_rate_kw delta_time_sec : ℚ) :
    EVSE × List EVSEState :=
  if e.state = .stateC_charging then
    let e :=
      if e.voltage_mv > 0 then
        { e with actual_current_amps :=
            actual_charge_rate_kw * 1000 * 1000 / (e.voltage_mv : ℚ) }
      else e
    let e := { e with session_energy_wh :=
        e.session_energy_wh + actual_charge_rate_kw * delta_time_sec * 1000 / 3600 }
    let e := { e with
        temperature_ds :=
          min OVER_TEMP_THRESHOLD
            (e.temperature_ds + pyTrunc (delta_time_sec * (1/2))),
        temperature_mcp :=
          min OVER_TEMP_THRESHOLD
            (e.temperature_mcp + pyTrunc (delta_time_sec * (1/2))) }
    if e.temperature_ds > OVER_TEMP_THRESHOLD ∨
       e.temperature_mcp > OVER_TEMP_THRESHOLD then
      triggerErrorInternal e OVER_TEMPERATURE
    else (e, [])
  else
    ({ e with
        temperature_ds :=
          max AMBIENT_TEMP (e.temperature_ds - pyTrunc (delta_time_sec * 2)),
        temperature_mcp :=
          max AMBIENT_TEMP (e.temperature_mcp - pyTrunc (delta_time_sec * 2)) },
     [])

end OpenEVSE

namespace OpenEVSE

/-- Charging-curve and variance constants from `ev.py` (floats, exact as
rationals). -/
def TAPER_START_SOC : ℚ := 80
def TAPER_RANGE : ℚ := 20
def MAX_TAPER_FACTOR : ℚ := 1/2
def DIRECT_VARIANCE_RANGE : ℚ := 1/100
def BATTERY_VARIANCE_RANGE : ℚ := 1/100

/-- State of `EVSimulator` (`ev.py` `__init__`).  `_last_variance_time` is
not stored: whether `VARIANCE_INTERVAL_SEC` has elapsed is passed to
`update_charging` as the `elapsed` flag, and the `random.uniform` sample
as `u` (see module comment). -/
structure EV where
  battery_capacity_kwh : ℚ
  max_charge_rate_kw : ℚ
  connected : Bool
  requesting_charge : Bool
  soc : ℚ
  actual_charge_rate_kw : ℚ
  diode_check_failed : Bool
  direct_mode : Bool
  direct_current_amps : ℚ
  current_variance_enabled : Bool
  variance_multiplier : ℚ
  deriving DecidableEq, Repr

/-- `EVSimulator.__init__(battery_capacity_kwh, max_charge_rate_kw)`. -/
def initEV (battery_capacity_kwh max_charge_rate_kw : ℚ) : EV where
  battery_capacity_kwh := battery_capacity_kwh
  max_charge_rate_kw := max_charge_rate_kw
  connected := false
  requesting_charge := false
  soc := 50
  actual_charge_rate_kw := 0
  diode_check_failed := false
  direct_mode := false
  direct_current_amps := 0
  current_variance_enabled := false
  variance_multiplier := 1

/-- `connected` property setter: disconnecting also clears
`requesting_charge` and zeroes the rate, atomically. -/
def connectedSetter (ev : EV) (value : Bool) : EV :=
  let ev := { ev with connected := value }
  if ¬value then
    { ev with requesting_charge := false, actual_charge_rate_kw := 0 }
  else ev

/-- `requesting_charge` property setter: forced to `false` unless
connected. -/
def requestingChargeSetter (ev : EV) (value : Bool) : EV :=
  if ev.connected then { ev with requesting_charge := value }
  else { ev with requesting_charge := false }

/-- `soc` property setter: clamp to `[0, 100]`. -/
def socSetter (ev : EV) (value : ℚ) : EV :=
  { ev with soc := max 0 (min 100 value) }

/-- `diode_check_failed` property setter. -/
def diodeCheckFailedSetter (ev : EV) (value : Bool) : EV :=
  { ev with diode_check_failed := value }

/-- `direct_mode` property setter: also resets the variance multiplier. -/
def directModeSetter (ev : EV) (value : Bool) : EV :=
  { ev with direct_mode := value, variance_multiplier := 1 }

/-- `direct_current_amps` property setter: clamp below at 0. -/
def directCurrentAmpsSetter (ev : EV) (value : ℚ) : EV :=
  { ev with direct_current_amps := max 0 value }

/-- `current_variance_enabled` property setter: also resets the variance
multiplier. -/
def currentVarianceEnabledSetter (ev : EV) (value : Bool) : EV :=
  { ev with current_variance_enabled := value, variance_multiplier := 1 }

/-- `get_pilot_resistance()`: J1772 pilot letter as an ordinal list
(`"A"`=[65] … `"D"`=[68]). -/
def EV.get_pilot_resistance (ev : EV) : List Nat :=
  if ¬ev.connected then [65]
  else if ev.diode_check_failed then [68]
  else if ev.requesting_charge ∧ ev.actual_charge_rate_kw > 0 then [67]
  else [66]

/-- `_update_variance()`: when the 1-second interval has elapsed
(`elapsed`), draw a new multiplier from the mode's range; `u` is the
`random.uniform` sample (`U(-0.01,0.01)` in direct mode, `U(0,0.01)` in
battery mode). -/
def updateVariance (ev : EV) (elapsed : Bool) (u : ℚ) : EV :=
  if elapsed then
    if ev.direct_mode then { ev with variance_multiplier := 1 + u }
    else { ev with variance_multiplier := 1 - u }
  else ev

/-- The battery-mode power computation of `update_charging` (offered
power, limited by `max_charge_rate_kw`, tapered above `TAPER_START_SOC`),
factored out of the method body. -/
def batteryPower (ev : EV) (offered_current_amps voltage : ℚ) : ℚ :=
  let offered_power_kw := offered_current_amps * voltage / 1000
  let actual_power_kw := min offered_power_kw ev.max_charge_rate_kw
  if ev.soc > TAPER_START_SOC then
    actual_power_kw *
      (1 - ((ev.soc - TAPER_START_SOC) / TAPER_RANGE) * MAX_TAPER_FACTOR)
  else actual_power_kw

/-- `EVSimulator.update_charging(offered_current_amps, voltage,
delta_time_sec)`; `elapsed`/`u` model the variance timestamp and random
draw (see `updateVariance`). -/
def EV.update_charging (ev : EV) (offered_current_amps voltage delta_time_sec : ℚ)
    (elapsed : Bool) (u : ℚ) : EV :=
  if ¬ev.connected ∨ ¬ev.requesting_charge then
    { ev with actual_charge_rate_kw := 0 }
  else if ev.direct_mode then
    let actual_amps := ev.direct_current_amps
    let r : EV × ℚ :=
      if ev.current_variance_enabled then
        let ev := updateVariance ev elapsed u
        (ev, actual_amps * ev.variance_multiplier)
      else (ev, actual_amps)
    let ev : EV := { r.1 with actual_charge_rate_kw := r.2 * voltage / 1000 }
    ev
  else if ev.soc ≥ 100 then
    { ev with actual_charge_rate_kw := 0 }
  else
    let actual_power_kw := batteryPower ev offered_current_amps voltage
    let r : EV × ℚ :=
      if ev.current_variance_enabled then
        let ev := updateVariance ev elapsed u
        (ev, actual_power_kw * ev.variance_multiplier)
      else (ev, actual_power_kw)
    let actual_power_kw : ℚ := r.2
    let ev : EV := { r.1 with actual_charge_rate_kw := actual_power_kw }
    let energy_added_kwh := actual_power_kw * delta_time_sec / 3600
    let soc_increase := energy_added_kwh / ev.battery_capacity_kwh * 100
    let ev := { ev with soc := min 100 (ev.soc + soc_increase) }
    if ev.soc ≥ 100 then
      { ev with requesting_charge := false, actual_charge_rate_kw := 0 }
    else ev

/-- The public mutating operations of `EVSimulator` (property setters and
`update_charging`), for claims quantifying over every operation. -/
inductive EVOp where
  | setConnected (b : Bool)
  | setRequestingCharge (b : Bool)
  | setSoc (v : ℚ)
  | setDiodeCheckFailed (b : Bool)
  | setDirectMode (b : Bool)
  | setDirectCurrentAmps (v : ℚ)
  | setCurrentVarianceEnabled (b : Bool)
  | updateCharging (offered voltage dt : ℚ) (elapsed : Bool) (u : ℚ)

/-- Apply one public `EVSimulator` operation. -/
def evStep (op : EVOp) (ev : EV) : EV :=
  match op with
  | .setConnected b => connectedSetter ev b
  | .setRequestingCharge b => requestingChargeSetter ev b
  | .setSoc v => socSetter ev v
  | .setDiodeCheckFailed b => diodeCheckFailedSetter ev b
  | .setDirectMode b => directModeSetter ev b
  | .setDirectCurrentAmps v => directCurrentAmpsSetter ev v
  | .setCurrentVarianceEnabled b => currentVarianceEnabledSetter ev b
  | .updateCharging offered voltage dt elapsed u =>
      ev.update_charging offered voltage dt elapsed u

end OpenEVSE

namespace OpenEVSE

/-! ## RAPI protocol (`rapi.py`) -/

/-- `"$OK"` as ordinals. -/
def RAPI_OK_RESPONSE : List Nat := [36, 79, 75]
/-- `"$NK"` as ordinals. -/
def RAPI_ERROR_RESPONSE : List Nat := [36, 78, 75]
/-- `"\r"` as ordinals. -/
def RAPI_LINE_ENDING : List Nat := [13]
/-- `"^"` ordinal. -/
def RAPI_CHECKSUM_PREFIX : Nat := 94

/-- XOR accumulator of `_calculate_checksum`: `checksum = 0; for char in
data: checksum ^= ord(char)`. -/
def xorFold (s : List Nat) : Nat := s.foldl (fun a c => a ^^^ c) 0

/-- One uppercase hex digit (ordinal), as produced by Python `"%X"`. -/
def hexDigit (n : Nat) : Nat := if n < 10 then 48 + n else 55 + n

/-- Uppercase hex digits (ordinals) of `n`, most significant first. -/
def hexChars (n : Nat) : List Nat :=
  if _h : n < 16 then [hexDigit n]
  else hexChars (n / 16) ++ [hexDigit (n % 16)]
decreasing_by exact Nat.div_lt_self (by omega) (by norm_num)

/-- Python `f"{n:02X}"`: uppercase hex, zero-padded to at least 2 digits. -/
def fmt02X (n : Nat) : List Nat :=
  let d := hexChars n
  if d.length < 2 then List.replicate (2 - d.length) 48 ++ d else d

/-- `_calculate_checksum(data)`: `"^"` followed by `f"{checksum:02X}"`. -/
def calculate_checksum (data : List Nat) : List Nat :=
  RAPI_CHECKSUM_PREFIX :: fmt02X (xorFold data)

/-- `_append_checksum(data)`. -/
def append_checksum (data : List Nat) : List Nat :=
  data ++ calculate_checksum data

/-- Python `str.find` restricted to a single character: index of the first
occurrence, `none` when absent (source`-1`). -/
def pyFind (c : Nat) : List Nat → Option Nat
  | [] => none
  | x :: xs => if x = c then some 0 else (pyFind c xs).map (· + 1)

/-- Python `str.rfind` restricted to a single character: index of the last
occurrence, `none` when absent (source `-1`). -/
def pyRfind (c : Nat) : List Nat → Option Nat
  | [] => none
  | x :: xs =>
      match pyRfind c xs with
      | some i => some (i + 1)
      | none => if x = c then some 0 else none

/-- `_verify_checksum(data)`: absent `^` is valid; otherwise compare the
recomputed checksum of the text before the last `^` against the two
characters after it.  (The source's `try/except` guard is dead: Python
slicing never raises on these inputs.) -/
def verify_checksum (data : List Nat) : Bool :=
  match pyRfind RAPI_CHECKSUM_PREFIX data with
  | none => true
  | some pos =>
      let data_part := data.take pos
      let checksum_part := (data.drop (pos + 1)).take 2
      calculate_checksum data_part = RAPI_CHECKSUM_PREFIX :: checksum_part

/-- ASCII whitespace recognised by Python `str.strip()` / `str.split()`
(the non-ASCII Unicode whitespace Python also accepts never occurs in the
latin-1 protocol traffic modeled here). -/
def isPySpace (c : Nat) : Bool :=
  c == 9 || c == 10 || c == 11 || c == 12 || c == 13 || c == 32

/-- Python `str.strip()`. -/
def pyStrip (s : List Nat) : List Nat :=
  ((s.dropWhile isPySpace).reverse.dropWhile isPySpace).reverse

/-- Helper for `splitWs`: accumulate the current token (reversed). -/
def splitWsAux : List Nat → List Nat → List (List Nat)
  | [], acc => if acc.isEmpty then [] else [acc.reverse]
  | c :: cs, acc =>
      if isPySpace c then
        if acc.isEmpty then splitWsAux cs []
        else acc.reverse :: splitWsAux cs []
      else splitWsAux cs (c :: acc)

/-- Python `str.split()` with no separator: split on whitespace runs,
dropping empty tokens. -/
def splitWs (s : List Nat) : List (List Nat) := splitWsAux s []

/-- Digit-and-underscore scanner of Python `int(str)`: `digit+ ('_'
digit+)*`.  `prevDigit` records whether the previous character was a
digit (an underscore is legal only between digits). -/
def parseDigitsAux : List Nat → Nat → Bool → Option Nat
  | [], acc, prevDigit => if prevDigit then some acc else none
  | c :: cs, acc, prevDigit =>
      if 48 ≤ c ∧ c ≤ 57 then parseDigitsAux cs (acc * 10 + (c - 48)) true
      else if c = 95 ∧ prevDigit then parseDigitsAux cs acc false
      else none

/-- Python `int(str)` in base 10: optional surrounding whitespace,
optional sign, ASCII digits with single underscores between digit groups;
`none` models the `ValueError`.  (Python additionally accepts non-ASCII
decimal digits, which never occur in this protocol.) -/
def pyInt (s : List Nat) : Option ℤ :=
  match pyStrip s with
  | 43 :: rest => (parseDigitsAux rest 0 false).map (fun n => (n : ℤ))
  | 45 :: rest => (parseDigitsAux rest 0 false).map (fun n => -(n : ℤ))
  | s' => (parseDigitsAux s' 0 false).map (fun n => (n : ℤ))

/-- Decimal digits (ordinals) of `n`, as printed by Python `str`. -/
def natToDec (n : Nat) : List Nat :=
  if _h : n < 10 then [48 + n]
  else natToDec (n / 10) ++ [48 + n % 10]
decreasing_by exact Nat.div_lt_self (by omega) (by norm_num)

/-- Python `str(i)` for an integer. -/
def intToDec (i : ℤ) : List Nat :=
  if i < 0 then 45 :: natToDec i.natAbs else natToDec i.natAbs

/-- Python `str.upper()` on one latin-1 ordinal (ASCII case map; RAPI
command codes are ASCII). -/
def upperChar (c : Nat) : Nat := if 97 ≤ c ∧ c ≤ 122 then c - 32 else c

/-- State owned by `RAPIHandler.__init__` beyond the EVSE/EV references:
`strict_checksum`, ammeter calibration, MCU id, heartbeat supervision. -/
structure RAPIState where
  evse : EVSE
  ev : EV
  strict_checksum : Bool
  ammeter_scale : ℚ
  ammeter_offset : ℤ
  mcu_id : List Nat
  heartbeat_interval : ℤ
  heartbeat_current_limit : ℤ
  heartbeat_missed : Bool
  deriving DecidableEq, Repr

/-- `RAPIHandler.__init__(evse, ev, strict_checksum)`; `mcu_id` is
`"OpenEVSE03AB12CD"`. -/
def initRAPI (evse : EVSE) (ev : EV) (strict_checksum : Bool) : RAPIState where
  evse := evse
  ev := ev
  strict_checksum := strict_checksum
  ammeter_scale := 1
  ammeter_offset := 0
  mcu_id := [79, 112, 101, 110, 69, 86, 83, 69, 48, 51, 65, 66, 49, 50, 67, 68]
  heartbeat_interval := 0
  heartbeat_current_limit := 0
  heartbeat_missed := false

/-- Type of a command handler: parameters to response text plus updated
state; `.error` models an uncaught Python exception escaping the
handler. -/
abbrev RAPIHandlerFn :=
  RAPIState → List (List Nat) → Except Unit (List Nat × RAPIState)

/-- `_cmd_set_current`: `$SC <amps>`.  The `int()` `ValueError` is caught
inside the handler (modeled by `pyInt` returning `none`), so this handler
never raises. -/
def cmdSetCurrent : RAPIHandlerFn := fun h params =>
  match params with
  | [] => .ok (RAPI_ERROR_RESPONSE, h)
  | p :: _ =>
      match pyInt p with
      | none => .ok (RAPI_ERROR_RESPONSE, h)
      | some amps =>
          if amps < 6 ∨ amps > 80 then .ok (RAPI_ERROR_RESPONSE, h)
          else .ok (RAPI_OK_RESPONSE,
                    { h with evse := currentCapacitySetter h.evse amps })

/-- `_cmd_get_current_capacity`: `$GC`, returning
`f"$OK {self.evse.current_capacity_amps}"`. -/
def cmdGetCurrentCapacity : RAPIHandlerFn := fun h _ =>
  .ok (RAPI_OK_RESPONSE ++ [32] ++ intToDec h.evse.current_capacity_amps, h)

/-- The `"SC"` and `"GC"` rows of the `RAPIHandler.commands` dispatch
table.  The source table has 27 rows; the remaining handlers are not
embedded here, and every theorem below evaluates the dispatcher only on
commands resolving to these rows or to an explicitly supplied handler. -/
def commandsModel : List Nat → Option RAPIHandlerFn := fun code =>
  if code = [83, 67] then some cmdSetCurrent
  else if code = [71, 67] then some cmdGetCurrentCapacity
  else none

/-- `RAPIHandler.process_command`, parameterized by the dispatch table
(`self.commands.get`).  Returns the full wire response (echo, response,
checksum, line ending) and the updated state. -/
def processCommandWith (commands : List Nat → Option RAPIHandlerFn)
    (h : RAPIState) (command : List Nat) : List Nat × RAPIState :=
  let command := pyStrip command
  if command.head? ≠ some 36 then
    (append_checksum RAPI_ERROR_RESPONSE ++ RAPI_LINE_ENDING, h)
  else if ¬ verify_checksum command ∧ h.strict_checksum then
    (append_checksum RAPI_ERROR_RESPONSE ++ RAPI_LINE_ENDING, h)
  else
    -- lenient mode: a checksum mismatch is only logged, processing continues
    let command := command.drop 1
    let command :=
      match pyRfind RAPI_CHECKSUM_PREFIX command with
      | some pos => command.take pos
      | none => command
    match splitWs command with
    | [] => (append_checksum RAPI_ERROR_RESPONSE ++ RAPI_LINE_ENDING, h)
    | p0 :: rest =>
      let cmd_code := p0.map upperChar
      let params := rest
      let echo :=
        if h.evse.echo_enabled then
          append_checksum (36 :: List.intercalate [36] (cmd_code :: params)) ++
            RAPI_LINE_ENDING
        else []
      match commands cmd_code with
      | none => (echo ++ append_checksum RAPI_ERROR_RESPONSE ++ RAPI_LINE_ENDING, h)
      | some handler =>
          match handler h params with
          | .ok (response, h') =>
              (echo ++ append_checksum response ++ RAPI_LINE_ENDING, h')
          | .error _ =>
              (echo ++ append_checksum RAPI_ERROR_RESPONSE ++ RAPI_LINE_ENDING, h)

end OpenEVSE

namespace OpenEVSE

/-! ## Virtual serial transport line framing (`serial_port.py`) -/

/-- A found index is in range. -/
theorem pyFind_lt_length {c : Nat} {s : List Nat} {i : Nat}
    (h : pyFind c s = some i) : i < s.length := by
  induction s generalizing i with
  | nil => simp [pyFind] at h
  | cons x xs ih =>
      simp only [pyFind] at h
      split at h
      · cases h; simp
      · cases hx : pyFind c xs with
        | none => simp [hx] at h
        | some j =>
            simp [hx] at h
            subst h
            simpa using ih hx

/-- The shared body of `_pty_read_loop` / `_tcp_client_loop` that locates
the end of the first complete line: the first `\r` (13) and first `\n`
(10) positions, combined exactly as in the source (`min` when both are
present, the present one otherwise, no line when neither occurs). -/
def findLineEnd (buffer : List Nat) : Option Nat :=
  match pyFind 13 buffer, pyFind 10 buffer with
  | none, none => none
  | none, some lf_pos => some lf_pos
  | some cr_pos, none => some cr_pos
  | some cr_pos, some lf_pos => some (min cr_pos lf_pos)

/-- A found line end is in range. -/
theorem findLineEnd_lt_length {buffer : List Nat} {e : Nat}
    (h : findLineEnd buffer = some e) : e < buffer.length := by
  unfold findLineEnd at h
  cases hcr : pyFind 13 buffer with
  | none =>
      cases hlf : pyFind 10 buffer with
      | none => simp [hcr, hlf] at h
      | some lf_pos =>
          simp [hcr, hlf] at h
          exact h ▸ pyFind_lt_length hlf
  | some cr_pos =>
      cases hlf : pyFind 10 buffer with
      | none =>
          simp [hcr, hlf] at h
          exact h ▸ pyFind_lt_length hcr
      | some lf_pos =>
          simp [hcr, hlf] at h
          subst h
          exact lt_of_le_of_lt (min_le_left _ _) (pyFind_lt_length hcr)

/-- The buffer-draining `while` loop of `_pty_read_loop` /
`_tcp_client_loop`: slice out each complete line (terminator included),
invoke the data callback on lines with non-empty `strip()`, and collect
everything written back, in order (`if response:` only skips empty
writes, which concatenation already models).  Returns the bytes written
and the leftover partial line kept in the buffer. -/
def processBuffer (cb : List Nat → List Nat) (buffer : List Nat) :
    List Nat × List Nat :=
  match _hfe : findLineEnd buffer with
  | none => ([], buffer)
  | some end_pos =>
      let command := buffer.take (end_pos + 1)
      let rest := buffer.drop (end_pos + 1)
      let out := if pyStrip command ≠ [] then cb command else []
      let (outs, rem) := processBuffer cb rest
      (out ++ outs, rem)
termination_by buffer.length
decreasing_by
  have := findLineEnd_lt_length _hfe
  simp only [List.length_drop]
  omega

/-- The same loop viewed as a pure framer: the list of sliced-out lines
(terminator included) and the leftover buffer. -/
def frameLines (buffer : List Nat) : List (List Nat) × List Nat :=
  match _hfe : findLineEnd buffer with
  | none => ([], buffer)
  | some end_pos =>
      let command := buffer.take (end_pos + 1)
      let rest := buffer.drop (end_pos + 1)
      let (lines, rem) := frameLines rest
      (command :: lines, rem)
termination_by buffer.length
decreasing_by
  have := findLineEnd_lt_length _hfe
  simp only [List.length_drop]
  omega

end OpenEVSE

namespace OpenEVSE

/-- The public mutating operations of `EVSEStateMachine` that are embedded
here (every public mutator except the three LCD mutators, which touch only
the omitted LCD fields). -/
inductive EVSEOp where
  | setCurrentCapacityProp (v : ℤ)
  | setPilotCapacityProp (v : ℤ)
  | setMaxConfiguredProp (v : ℤ)
  | setServiceLevel (v : List Nat)
  | setEchoEnabled (b : Bool)
  | setCurrentCapacity (amps : ℤ)
  | setMaxCapacity (amps : ℤ)
  | enable
  | disable
  | reset
  | triggerError (flag : Nat)
  | clearErrors
  | updateState (pilot : List Nat) (now : ℚ)
  | updateCharging (power dt : ℚ)

/-- Apply one public `EVSEStateMachine` operation (state part only). -/
def evseStep (op : EVSEOp) (e : EVSE) : EVSE :=
  match op with
  | .setCurrentCapacityProp v => currentCapacitySetter e v
  | .setPilotCapacityProp v => pilotCapacitySetter e v
  | .setMaxConfiguredProp v => maxConfiguredCapacitySetter e v
  | .setServiceLevel v => serviceLevelSetter e v
  | .setEchoEnabled b => echoEnabledSetter e b
  | .setCurrentCapacity amps => (set_current_capacity e amps).2
  | .setMaxCapacity amps => (set_max_capacity e amps).2
  | .enable => e.enable.2
  | .disable => e.disable
  | .reset => e.reset
  | .triggerError flag => (e.trigger_error flag).1
  | .clearErrors => e.clear_errors.1
  | .updateState pilot now => (update_state e pilot now).1
  | .updateCharging power dt => (e.update_charging power dt).1

/-- The capacity invariant of the spec:
`min_amps ≤ current_capacity_amps ≤ min(max_configured_amps, max_hw_amps)`. -/
def capInv (e : EVSE) : Prop :=
  e.min_capacity_amps ≤ e.current_capacity_amps ∧
  e.current_capacity_amps ≤
    min e.max_configured_capacity_amps e.max_hw_capacity_amps

instance (e : EVSE) : Decidable (capInv e) := by
  unfold capInv; infer_instance

set_option maxHeartbeats 2000000 in
/-- The pilot transition table never writes a capacity field. -/
theorem updateStateBranch_capacity_frame (e : EVSE) (pilot : List Nat) (now : ℚ) :
    (updateStateBranch e pilot now).1.current_capacity_amps = e.current_capacity_amps ∧
    (updateStateBranch e pilot now).1.max_configured_capacity_amps =
      e.max_configured_capacity_amps ∧
    (updateStateBranch e pilot now).1.min_capacity_amps = e.min_capacity_amps ∧
    (updateStateBranch e pilot now).1.max_hw_capacity_amps = e.max_hw_capacity_amps := by
  refine ⟨?_, ?_, ?_, ?_⟩ <;>
    (unfold updateStateBranch triggerErrorInternal; dsimp only;
     repeat' split
     all_goals rfl)

/-- `update_state` never writes a capacity field. -/
theorem update_state_capacity_frame (e : EVSE) (pilot : List Nat) (now : ℚ) :
    (update_state e pilot now).1.current_capacity_amps = e.current_capacity_amps ∧
    (update_state e pilot now).1.max_configured_capacity_amps =
      e.max_configured_capacity_amps ∧
    (update_state e pilot now).1.min_capacity_amps = e.min_capacity_amps ∧
    (update_state e pilot now).1.max_hw_capacity_amps = e.max_hw_capacity_amps := by
  unfold update_state
  dsimp only
  split
  · exact ⟨rfl, rfl, rfl, rfl⟩
  · split
    · exact updateStateBranch_capacity_frame e pilot now
    · exact updateStateBranch_capacity_frame e pilot now

set_option maxHeartbeats 2000000 in
/-- `update_charging` never writes a capacity field. -/
theorem update_charging_capacity_frame (e : EVSE) (power dt : ℚ) :
    (e.update_charging power dt).1.current_capacity_amps = e.current_capacity_amps ∧
    (e.update_charging power dt).1.max_configured_capacity_amps =
      e.max_configured_capacity_amps ∧
    (e.update_charging power dt).1.min_capacity_amps = e.min_capacity_amps ∧
    (e.update_charging power dt).1.max_hw_capacity_amps = e.max_hw_capacity_amps := by
  refine ⟨?_, ?_, ?_, ?_⟩ <;>
    (unfold EVSE.update_charging triggerErrorInternal; dsimp only;
     repeat' split
     all_goals rfl)

end OpenEVSE

namespace OpenEVSE

/-- C1 (counterexample): the claimed invariant
`min ≤ current ≤ min(max_configured, max_hw)` is NOT preserved by every
public operation: it holds on a freshly constructed EVSE, yet the
`current_capacity_amps` property setter (which clamps only to `[6, 80]`,
ignoring `max_configured_capacity_amps = 32`) breaks it at value 50. -/
theorem claim_C1_counterexample :
    capInv initEVSE ∧ ¬ capInv (currentCapacitySetter initEVSE 50) := by
  decide

/-- C1 (amended): the invariant
`min_capacity_amps ≤ current_capacity_amps ≤ min(max_configured, max_hw)`
holds after construction and is preserved by every public operation
except the `current_capacity_amps` and `max_configured_capacity_amps`
property setters (which can violate it), assuming the ambient bounds
`min ≤ max_configured ≤ max_hw` that every reachable state satisfies. -/
theorem claim_C1_amended :
    capInv initEVSE ∧
    ∀ (e : EVSE) (op : EVSEOp),
      e.min_capacity_amps ≤ e.max_configured_capacity_amps →
      e.max_configured_capacity_amps ≤ e.max_hw_capacity_amps →
      capInv e →
      (∀ v, op ≠ EVSEOp.setCurrentCapacityProp v) →
      (∀ v, op ≠ EVSEOp.setMaxConfiguredProp v) →
      capInv (evseStep op e) := by
  refine ⟨by decide, ?_⟩
  intro e op h1 h2 hinv hne1 hne2
  obtain ⟨hlo, hhi⟩ := hinv
  cases op with
  | setCurrentCapacityProp v => exact absurd rfl (hne1 v)
  | setMaxConfiguredProp v => exact absurd rfl (hne2 v)
  | setPilotCapacityProp v => exact ⟨hlo, hhi⟩
  | setServiceLevel v =>
      show capInv (serviceLevelSetter e v)
      unfold serviceLevelSetter
      split_ifs <;> exact ⟨hlo, hhi⟩
  | setEchoEnabled b => exact ⟨hlo, hhi⟩
  | setCurrentCapacity amps =>
      refine ⟨?_, ?_⟩ <;> simp only [evseStep, set_current_capacity] <;> omega
  | setMaxCapacity amps =>
      simp only [evseStep, set_max_capacity]
      split
      · exact ⟨hlo, hhi⟩
      · dsimp only
        split <;> refine ⟨?_, ?_⟩ <;> simp only <;> omega
  | enable =>
      show capInv e.enable.2
      unfold EVSE.enable
      split <;> exact ⟨hlo, hhi⟩
  | disable => exact ⟨hlo, hhi⟩
  | reset => exact ⟨hlo, hhi⟩
  | triggerError flag =>
      show capInv (e.trigger_error flag).1
      unfold EVSE.trigger_error triggerErrorInternal
      dsimp only
      repeat' split
      all_goals exact ⟨hlo, hhi⟩
  | clearErrors =>
      show capInv e.clear_errors.1
      unfold EVSE.clear_errors
      dsimp only
      repeat' split
      all_goals exact ⟨hlo, hhi⟩
  | updateState pilot now =>
      obtain ⟨hc, hm, hmin, hhw⟩ := update_state_capacity_frame e pilot now
      simp only [evseStep, capInv]
      rw [hc, hm, hmin, hhw]
      exact ⟨hlo, hhi⟩
  | updateCharging power dt =>
      obtain ⟨hc, hm, hmin, hhw⟩ := update_charging_capacity_frame e power dt
      simp only [evseStep, capInv]
      rw [hc, hm, hmin, hhw]
      exact ⟨hlo, hhi⟩

/-- C1 witness: the amended preservation applied to `set_current_capacity(50)`
on a fresh EVSE. -/
theorem claim_C1_witness :
    capInv (evseStep (EVSEOp.setCurrentCapacity 50) initEVSE) :=
  claim_C1_amended.2 initEVSE (EVSEOp.setCurrentCapacity 50)
    (by decide) (by decide) (by decide)
    (fun _ h => EVSEOp.noConfusion h) (fun _ h => EVSEOp.noConfusion h)

end OpenEVSE

namespace OpenEVSE

/-- C2 (counterexample): `set_max_capacity` does lock, but the lock does
not make `max_configured_capacity_amps` immutable for the object's
lifetime: after a successful `set_max_capacity(40)` (value 40, locked),
the `max_configured_capacity_amps` property setter — a public operation
not guarded by `_max_capacity_locked` — changes the value to 20. -/
theorem claim_C2_counterexample :
    (set_max_capacity initEVSE 40).2.max_capacity_locked = true ∧
    (set_max_capacity initEVSE 40).2.max_configured_capacity_amps = 40 ∧
    (maxConfiguredCapacitySetter
        (set_max_capacity initEVSE 40).2 20).max_configured_capacity_amps = 20 := by
  decide

/-- C2 (amended): the first `set_max_capacity(amps)` call succeeds,
clamps to `[min_capacity_amps, max_hw_capacity_amps]`, stores the value,
locks, and lowers `current_capacity_amps` to the new maximum when it
exceeded it; every later `set_max_capacity` call, regardless of argument,
returns `(false, currently stored value)` and leaves the state unchanged.
`set_max_capacity` itself never changes the value again, but the
`max_configured_capacity_amps` property setter is not guarded by the lock
and still can. -/
theorem claim_C2_amended :
    ∀ (e : EVSE) (amps : ℤ),
      (e.max_capacity_locked = false →
        (set_max_capacity e amps).1 =
          (true, max e.min_capacity_amps (min e.max_hw_capacity_amps amps)) ∧
        (set_max_capacity e amps).2.max_configured_capacity_amps =
          max e.min_capacity_amps (min e.max_hw_capacity_amps amps) ∧
        (set_max_capacity e amps).2.max_capacity_locked = true ∧
        (set_max_capacity e amps).2.current_capacity_amps =
          min e.current_capacity_amps
            (max e.min_capacity_amps (min e.max_hw_capacity_amps amps))) ∧
      (e.max_capacity_locked = true →
        set_max_capacity e amps = ((false, e.max_configured_capacity_amps), e)) := by
  intro e amps
  constructor
  · intro hl
    unfold set_max_capacity
    rw [if_neg (by simp [hl])]
    dsimp only
    refine ⟨rfl, ?_, ?_, ?_⟩
    · split <;> rfl
    · split <;> rfl
    · split
      · rename_i hgt
        exact (min_eq_right hgt.le).symm
      · rename_i hgt
        exact (min_eq_left (not_lt.mp hgt)).symm
  · intro hl
    unfold set_max_capacity
    rw [if_pos (by simp [hl])]

/-- C2 witness: the amended statement at a fresh EVSE with `amps = 40`
(first call) and at the resulting locked state with `amps = 70`
(rejected second call). -/
theorem claim_C2_witness :
    ((set_max_capacity initEVSE 40).1 =
        (true, max initEVSE.min_capacity_amps
                 (min initEVSE.max_hw_capacity_amps 40)) ∧
      (set_max_capacity initEVSE 40).2.max_configured_capacity_amps =
        max initEVSE.min_capacity_amps (min initEVSE.max_hw_capacity_amps 40) ∧
      (set_max_capacity initEVSE 40).2.max_capacity_locked = true ∧
      (set_max_capacity initEVSE 40).2.current_capacity_amps =
        min initEVSE.current_capacity_amps
          (max initEVSE.min_capacity_amps (min initEVSE.max_hw_capacity_amps 40))) ∧
    set_max_capacity (set_max_capacity initEVSE 40).2 70 =
      ((false, (set_max_capacity initEVSE 40).2.max_configured_capacity_amps),
       (set_max_capacity initEVSE 40).2) :=
  ⟨(claim_C2_amended initEVSE 40).1 (by decide),
   (claim_C2_amended (set_max_capacity initEVSE 40).2 70).2 (by decide)⟩

/-- While the base state is CHARGING, `update_charging` raises both
sensors by `int(dt_sec*0.5)` capped at `OVER_TEMP_THRESHOLD`; the
over-temperature test (strictly greater than the threshold, checked after
the cap) can then never hold, so the error flags are unchanged and no
notification fires. -/
theorem update_charging_temps (e : EVSE) (power dt : ℚ)
    (h : e.state = EVSEState.stateC_charging) :
    (e.update_charging power dt).1.temperature_ds =
      min OVER_TEMP_THRESHOLD (e.temperature_ds + pyTrunc (dt * (1/2))) ∧
    (e.update_charging power dt).1.temperature_mcp =
      min OVER_TEMP_THRESHOLD (e.temperature_mcp + pyTrunc (dt * (1/2))) ∧
    (e.update_charging power dt).1.error_flags = e.error_flags ∧
    (e.update_charging power dt).2 = [] := by
  unfold EVSE.update_charging
  rw [if_pos h]
  dsimp only
  split <;>
    (split
     · rename_i hcond
       exfalso
       rcases hcond with h1 | h1
       · exact absurd h1 (not_lt.mpr (min_le_left _ _))
       · exact absurd h1 (not_lt.mpr (min_le_left _ _))
     · exact ⟨rfl, rfl, rfl, rfl⟩)

/-- Evaluation helper for `pyTrunc` once the reduced fraction is known. -/
theorem pyTrunc_eval (q : ℚ) (n : ℤ) (d : ℕ) (hn : q.num = n) (hd : q.den = d) :
    pyTrunc q = Int.sign n * ((n.natAbs / d : ℕ) : ℤ) := by
  rw [pyTrunc, hn, hd]

/-- C3 (counterexample): during charging, a tick with `dt_sec = 1` leaves
both temperature sensors unchanged at 250, because the source adds
`int(delta_time_sec * 0.5)` — the truncation of 0.5 is 0 — whereas the
claimed rise of `dt_sec·0.5 = 0.5` deci-°C would give 250.5. -/
theorem claim_C3_counterexample :
    (update_state initEVSE [67] 0).1.state = EVSEState.stateC_charging ∧
    (update_state initEVSE [67] 0).1.temperature_ds = 250 ∧
    ((update_state initEVSE [67] 0).1.update_charging (36/5) 1).1.temperature_ds
      = 250 ∧
    ¬ ((250 : ℚ) = 250 + 1 * (1/2)) := by
  refine ⟨by decide, by decide, ?_, by norm_num⟩
  have h := update_charging_temps (update_state initEVSE [67] 0).1 (36/5) 1
    (by decide)
  rw [h.1, pyTrunc_eval (1 * (1/2)) 1 2 (by norm_num) (by norm_num)]
  decide

/-- C3 (amended): while the base state is CHARGING, `update_charging`
raises both sensors by `int(dt_sec·0.5)` (truncation toward zero) capped
at 650, and the OVER_TEMPERATURE trigger condition — strictly greater
than 650, tested after the cap — can never hold, so the error flags are
unchanged and the flag is never set by this path. -/
theorem claim_C3_amended :
    ∀ (e : EVSE) (power dt : ℚ), e.state = EVSEState.stateC_charging →
      (e.update_charging power dt).1.temperature_ds =
        min OVER_TEMP_THRESHOLD (e.temperature_ds + pyTrunc (dt * (1/2))) ∧
      (e.update_charging power dt).1.temperature_mcp =
        min OVER_TEMP_THRESHOLD (e.temperature_mcp + pyTrunc (dt * (1/2))) ∧
      (e.update_charging power dt).1.error_flags = e.error_flags ∧
      (e.update_charging power dt).2 = [] :=
  fun e power dt h => update_charging_temps e power dt h

/-- C3 witness: the amended statement on a freshly-charging EVSE with
`power = 7.2`, `dt = 3`. -/
theorem claim_C3_witness :
    ((update_state initEVSE [67] 0).1.update_charging (36/5) 3).1.temperature_ds =
      min OVER_TEMP_THRESHOLD
        ((update_state initEVSE [67] 0).1.temperature_ds + pyTrunc (3 * (1/2))) ∧
    ((update_state initEVSE [67] 0).1.update_charging (36/5) 3).1.temperature_mcp =
      min OVER_TEMP_THRESHOLD
        ((update_state initEVSE [67] 0).1.temperature_mcp + pyTrunc (3 * (1/2))) ∧
    ((update_state initEVSE [67] 0).1.update_charging (36/5) 3).1.error_flags =
      (update_state initEVSE [67] 0).1.error_flags ∧
    ((update_state initEVSE [67] 0).1.update_charging (36/5) 3).2 = [] :=
  claim_C3_amended (update_state initEVSE [67] 0).1 (36/5) 3 (by decide)

/-- C10 (confirmed): `update_state` with a pilot argument outside
`{"A","B","C","D"}` — and likewise whenever `sleep_mode` is set — returns
the state entirely unchanged (every field) and fires no state-change
notification. -/
theorem claim_C10 :
    ∀ (e : EVSE) (pilot : List Nat) (now : ℚ),
      e.sleep_mode = true ∨
        (pilot ≠ [65] ∧ pilot ≠ [66] ∧ pilot ≠ [67] ∧ pilot ≠ [68]) →
      update_state e pilot now = (e, []) := by
  intro e pilot now h
  unfold update_state updateStateBranch
  rcases h with hs | ⟨h1, h2, h3, h4⟩
  · simp [hs]
  · by_cases hs : e.sleep_mode = true
    · simp [hs]
    · simp [hs, h1, h2, h3, h4]

/-- C10 witness: an unknown pilot letter `"X"` on a fresh EVSE. -/
theorem claim_C10_witness :
    update_state initEVSE [88] 0 = (initEVSE, []) :=
  claim_C10 initEVSE [88] 0 (Or.inr (by decide))

end OpenEVSE

namespace OpenEVSE

/-- C7 (confirmed): `requesting_charge` can be true only while `connected`
is true: the implication holds after construction, is preserved by every
public `EVSimulator` operation, disconnecting atomically forces
`requesting_charge = false` and `actual_charge_rate_kw = 0`, and setting
`requesting_charge = true` while disconnected is silently forced to
false. -/
theorem claim_C7 :
    (∀ cap rate, (initEV cap rate).requesting_charge = true →
        (initEV cap rate).connected = true) ∧
    (∀ (ev : EV) (op : EVOp),
        (ev.requesting_charge = true → ev.connected = true) →
        ((evStep op ev).requesting_charge = true →
          (evStep op ev).connected = true)) ∧
    (∀ ev : EV, (evStep (EVOp.setConnected false) ev).requesting_charge = false ∧
        (evStep (EVOp.setConnected false) ev).actual_charge_rate_kw = 0) ∧
    (∀ ev : EV, ev.connected = false →
        (evStep (EVOp.setRequestingCharge true) ev).requesting_charge = false) := by
  refine ⟨?_, ?_, ?_, ?_⟩
  · intro cap rate h
    simp [initEV] at h
  · intro ev op hi
    cases op with
    | setConnected b =>
        cases b with
        | false => intro h; simp [evStep, connectedSetter] at h
        | true => intro h; simp [evStep, connectedSetter]
    | setRequestingCharge b =>
        show (requestingChargeSetter ev b).requesting_charge = true →
          (requestingChargeSetter ev b).connected = true
        unfold requestingChargeSetter
        split
        · rename_i hc
          intro _
          simpa using hc
        · intro h
          simp at h
    | setSoc v => exact hi
    | setDiodeCheckFailed b => exact hi
    | setDirectMode b => exact hi
    | setDirectCurrentAmps v => exact hi
    | setCurrentVarianceEnabled b => exact hi
    | updateCharging offered voltage dt elapsed u =>
        show (ev.update_charging offered voltage dt elapsed u).requesting_charge
            = true →
          (ev.update_charging offered voltage dt elapsed u).connected = true
        unfold EV.update_charging updateVariance
        dsimp only
        repeat' split
        all_goals (intro h; first | exact hi h | simp at h)
  · intro ev
    constructor <;> simp [evStep, connectedSetter]
  · intro ev hc
    simp [evStep, requestingChargeSetter, hc]

/-- C7 witness: the invariant parts instantiated on a connected,
charge-requesting EV built from a fresh simulator. -/
theorem claim_C7_witness :
    ((initEV 75 8).requesting_charge = true → (initEV 75 8).connected = true) ∧
    ((evStep (EVOp.updateCharging 30 240 36 false 0)
        (evStep (EVOp.setRequestingCharge true)
          (evStep (EVOp.setConnected true) (initEV 75 8)))).requesting_charge
        = true →
      (evStep (EVOp.updateCharging 30 240 36 false 0)
        (evStep (EVOp.setRequestingCharge true)
          (evStep (EVOp.setConnected true) (initEV 75 8)))).connected = true) ∧
    ((evStep (EVOp.setConnected false)
        (evStep (EVOp.setRequestingCharge true)
          (evStep (EVOp.setConnected true) (initEV 75 8)))).requesting_charge
        = false ∧
      (evStep (EVOp.setConnected false)
        (evStep (EVOp.setRequestingCharge true)
          (evStep (EVOp.setConnected true) (initEV 75 8)))).actual_charge_rate_kw
        = 0) ∧
    (evStep (EVOp.setRequestingCharge true) (initEV 75 8)).requesting_charge
      = false :=
  ⟨claim_C7.1 75 8,
   claim_C7.2.1 _ (EVOp.updateCharging 30 240 36 false 0) (by decide),
   claim_C7.2.2.1 _,
   claim_C7.2.2.2 (initEV 75 8) (by decide)⟩

end OpenEVSE

namespace OpenEVSE

/-- The battery-mode power is nonnegative for nonnegative inputs (the
taper factor stays in `[1/2, 1]` while `soc ≤ 100`). -/
theorem batteryPower_nonneg (ev : EV) (offered voltage : ℚ)
    (ho : 0 ≤ offered) (hv : 0 ≤ voltage) (hrate : 0 ≤ ev.max_charge_rate_kw)
    (hsoc : ev.soc ≤ 100) : 0 ≤ batteryPower ev offered voltage := by
  unfold batteryPower
  dsimp only
  have hbp : 0 ≤ min (offered * voltage / 1000) ev.max_charge_rate_kw :=
    le_min (by positivity) hrate
  split
  · rename_i h80
    refine mul_nonneg hbp ?_
    unfold TAPER_START_SOC TAPER_RANGE MAX_TAPER_FACTOR
    unfold TAPER_START_SOC at h80
    linarith
  · exact hbp

/-- C8 (counterexample): on a reachable battery-mode EV (connected,
requesting charge, soc 50), `update_charging(-1000, 240, 3600)` drives
`soc` from 50 down to −270: a negative offered current makes the
integration step negative and the code has no lower clamp, so soc does
decrease; the claim as stated quantifies over every call. -/
theorem claim_C8_counterexample :
    (evStep (EVOp.setRequestingCharge true)
        (evStep (EVOp.setConnected true) (initEV 75 8))).direct_mode = false ∧
    (evStep (EVOp.setRequestingCharge true)
        (evStep (EVOp.setConnected true) (initEV 75 8))).soc = 50 ∧
    (EV.update_charging
        (evStep (EVOp.setRequestingCharge true)
          (evStep (EVOp.setConnected true) (initEV 75 8)))
        (-1000) 240 3600 false 0).soc = -270 := by
  refine ⟨by decide, by decide, ?_⟩
  show (EV.update_charging
      { battery_capacity_kwh := 75, max_charge_rate_kw := 8, connected := true,
        requesting_charge := true, soc := 50, actual_charge_rate_kw := 0,
        diode_check_failed := false, direct_mode := false, direct_current_amps := 0,
        current_variance_enabled := false, variance_multiplier := 1 }
      (-1000) 240 3600 false 0).soc = -270
  unfold EV.update_charging batteryPower
  norm_num [min_def, TAPER_START_SOC, TAPER_RANGE, MAX_TAPER_FACTOR]

set_option maxHeartbeats 2000000 in
/-- C8 (amended): in battery mode, for nonnegative inputs (offered
current, voltage, time step — what the simulation driver always passes —
with a nonnegative variance multiplier and sample, a positive battery
capacity, a nonnegative maximum rate, and `soc ≤ 100`), `soc` never
decreases and never exceeds 100, and the call that makes `soc` reach 100
clears `requesting_charge` and zeroes `actual_charge_rate_kw` in the same
call. -/
theorem claim_C8_amended (ev : EV) (offered voltage dt : ℚ) (elapsed : Bool)
    (u : ℚ)
    (hdm : ev.direct_mode = false)
    (ho : 0 ≤ offered) (hv : 0 ≤ voltage) (hdt : 0 ≤ dt)
    (hm : 0 ≤ ev.variance_multiplier) (_hu : 0 ≤ u) (hub : u ≤ 1/100)
    (hcap : 0 < ev.battery_capacity_kwh) (hrate : 0 ≤ ev.max_charge_rate_kw)
    (hsoc : ev.soc ≤ 100) :
    ev.soc ≤ (ev.update_charging offered voltage dt elapsed u).soc ∧
    (ev.update_charging offered voltage dt elapsed u).soc ≤ 100 ∧
    ((ev.update_charging offered voltage dt elapsed u).soc = 100 →
      ev.soc = 100 ∨
      ((ev.update_charging offered voltage dt elapsed u).requesting_charge = false ∧
       (ev.update_charging offered voltage dt elapsed u).actual_charge_rate_kw = 0)) := by
  have hbp := batteryPower_nonneg ev offered voltage ho hv hrate hsoc
  unfold EV.update_charging
  split
  · exact ⟨le_refl _, hsoc, fun h => Or.inl h⟩
  · rw [if_neg (show ¬(ev.direct_mode = true) by simp [hdm])]
    split
    · exact ⟨le_refl _, hsoc, fun h => Or.inl h⟩
    · dsimp only
      by_cases hvar : ev.current_variance_enabled = true
      · rw [if_pos hvar]
        unfold updateVariance
        by_cases hel : elapsed = true
        · rw [if_pos hel, if_neg (show ¬(ev.direct_mode = true) by simp [hdm])]
          dsimp only
          have hr2 : 0 ≤ batteryPower ev offered voltage * (1 - u) :=
            mul_nonneg hbp (by linarith)
          have hinc : 0 ≤ batteryPower ev offered voltage * (1 - u) * dt / 3600 /
              ev.battery_capacity_kwh * 100 :=
            mul_nonneg (div_nonneg (div_nonneg (mul_nonneg hr2 hdt) (by norm_num))
              hcap.le) (by norm_num)
          split
          · exact ⟨le_min hsoc (by linarith), min_le_left _ _,
              fun _ => Or.inr ⟨rfl, rfl⟩⟩
          · rename_i hlt
            exact ⟨le_min hsoc (by linarith), min_le_left _ _,
              fun h => absurd h.ge hlt⟩
        · rw [if_neg hel]
          dsimp only
          have hr2 : 0 ≤ batteryPower ev offered voltage * ev.variance_multiplier :=
            mul_nonneg hbp hm
          have hinc : 0 ≤ batteryPower ev offered voltage * ev.variance_multiplier *
              dt / 3600 / ev.battery_capacity_kwh * 100 :=
            mul_nonneg (div_nonneg (div_nonneg (mul_nonneg hr2 hdt) (by norm_num))
              hcap.le) (by norm_num)
          split
          · exact ⟨le_min hsoc (by linarith), min_le_left _ _,
              fun _ => Or.inr ⟨rfl, rfl⟩⟩
          · rename_i hlt
            exact ⟨le_min hsoc (by linarith), min_le_left _ _,
              fun h => absurd h.ge hlt⟩
      · rw [if_neg hvar]
        dsimp only
        have hinc : 0 ≤ batteryPower ev offered voltage * dt / 3600 /
            ev.battery_capacity_kwh * 100 :=
          mul_nonneg (div_nonneg (div_nonneg (mul_nonneg hbp hdt) (by norm_num))
            hcap.le) (by norm_num)
        split
        · exact ⟨le_min hsoc (by linarith), min_le_left _ _,
            fun _ => Or.inr ⟨rfl, rfl⟩⟩
        · rename_i hlt
          exact ⟨le_min hsoc (by linarith), min_le_left _ _,
            fun h => absurd h.ge hlt⟩

/-- C8 witness: the amended statement on a reachable battery-mode EV with
`offered = 30 A`, `voltage = 240 V`, `dt = 3600 s`, variance sample 0. -/
theorem claim_C8_witness :
    (evStep (EVOp.setRequestingCharge true)
        (evStep (EVOp.setConnected true) (initEV 75 8))).soc ≤
      ((evStep (EVOp.setRequestingCharge true)
          (evStep (EVOp.setConnected true) (initEV 75 8))).update_charging
        30 240 3600 false 0).soc ∧
    ((evStep (EVOp.setRequestingCharge true)
        (evStep (EVOp.setConnected true) (initEV 75 8))).update_charging
      30 240 3600 false 0).soc ≤ 100 ∧
    (((evStep (EVOp.setRequestingCharge true)
        (evStep (EVOp.setConnected true) (initEV 75 8))).update_charging
      30 240 3600 false 0).soc = 100 →
      (evStep (EVOp.setRequestingCharge true)
        (evStep (EVOp.setConnected true) (initEV 75 8))).soc = 100 ∨
      (((evStep (EVOp.setRequestingCharge true)
          (evStep (EVOp.setConnected true) (initEV 75 8))).update_charging
        30 240 3600 false 0).requesting_charge = false ∧
       ((evStep (EVOp.setRequestingCharge true)
          (evStep (EVOp.setConnected true) (initEV 75 8))).update_charging
        30 240 3600 false 0).actual_charge_rate_kw = 0)) :=
  claim_C8_amended
    (evStep (EVOp.setRequestingCharge true)
      (evStep (EVOp.setConnected true) (initEV 75 8)))
    30 240 3600 false 0
    (by decide) (by decide) (by decide) (by decide) (by decide)
    (by decide) (by norm_num) (by decide) (by decide) (by decide)

end OpenEVSE

namespace OpenEVSE

/-! ## Checksum round trip (claim C4) -/

/-- Folding XOR from any accumulator. -/
theorem foldl_xor_eq (a : Nat) (l : List Nat) :
    l.foldl (fun x c => x ^^^ c) a = a ^^^ xorFold l := by
  induction l generalizing a with
  | nil => simp [xorFold]
  | cons c cs ih =>
      simp only [xorFold, List.foldl_cons] at *
      rw [ih (a ^^^ c), ih (0 ^^^ c), Nat.zero_xor, Nat.xor_assoc]

/-- The XOR checksum splits over concatenation. -/
theorem xorFold_append (l1 l2 : List Nat) :
    xorFold (l1 ++ l2) = xorFold l1 ^^^ xorFold l2 := by
  unfold xorFold
  rw [List.foldl_append, foldl_xor_eq]
  rfl

/-- The XOR checksum splits off the head. -/
theorem xorFold_cons (c : Nat) (l : List Nat) :
    xorFold (c :: l) = c ^^^ xorFold l := by
  have h := xorFold_append [c] l
  simpa [xorFold] using h

/-- The XOR of latin-1 ordinals stays below 256. -/
theorem xorFold_lt (s : List Nat) (hs : ∀ c ∈ s, c < 256) : xorFold s < 256 := by
  induction s with
  | nil => simp [xorFold]
  | cons c cs ih =>
      have h1 : c < 256 := hs c (by simp)
      have h2 : xorFold cs < 256 := ih (fun x hx => hs x (by simp [hx]))
      rw [xorFold_cons]
      have h256 : (256 : Nat) = 2 ^ 8 := by norm_num
      rw [h256] at h1 h2 ⊢
      exact Nat.xor_lt_two_pow h1 h2

/-- No hex digit is the `^` marker (ordinal 94). -/
theorem hexDigit_ne_94 (n : Nat) (h : n < 16) : hexDigit n ≠ 94 := by
  interval_cases n <;> decide

/-- Hex digits are distinct. -/
theorem hexDigit_inj (a b : Nat) (ha : a < 16) (hb : b < 16)
    (h : hexDigit a = hexDigit b) : a = b := by
  interval_cases a <;> interval_cases b <;> simp_all [hexDigit]

/-- For checksums below 256, `f"{n:02X}"` is exactly two hex digits. -/
theorem fmt02X_eq (n : Nat) (h : n < 256) :
    fmt02X n = [hexDigit (n / 16), hexDigit (n % 16)] := by
  by_cases h16 : n < 16
  · have hh : hexChars n = [hexDigit n] := by rw [hexChars]; simp [h16]
    rw [fmt02X, hh]
    simp [Nat.div_eq_of_lt h16, Nat.mod_eq_of_lt h16, hexDigit]
  · have hdiv : n / 16 < 16 := by omega
    have h1 : hexChars (n / 16) = [hexDigit (n / 16)] := by
      rw [hexChars]; simp [hdiv]
    have hh : hexChars n = [hexDigit (n / 16), hexDigit (n % 16)] := by
      rw [hexChars]
      simp [h16, h1]
    rw [fmt02X, hh]
    simp

/-- `rfind` misses a character that does not occur. -/
theorem pyRfind_eq_none (c : Nat) (l : List Nat) (h : c ∉ l) :
    pyRfind c l = none := by
  induction l with
  | nil => rfl
  | cons x xs ih =>
      simp only [List.mem_cons, not_or] at h
      rw [pyRfind, ih h.2]
      simp [Ne.symm h.1]

/-- `rfind` on a concatenation finds the occurrence in the tail. -/
theorem pyRfind_append_of_some (c : Nat) (s t : List Nat) (j : Nat)
    (ht : pyRfind c t = some j) :
    pyRfind c (s ++ t) = some (s.length + j) := by
  induction s with
  | nil => simpa using ht
  | cons x xs ih =>
      rw [List.cons_append, pyRfind, ih]
      simp
      omega

/-- Round trip: verifying a freshly checksummed latin-1 string succeeds
(the appended `^` is the last one, and the two hex digits are read back
exactly). -/
theorem verify_append (s : List Nat) (hs : ∀ c ∈ s, c < 256) :
    verify_checksum (append_checksum s) = true := by
  have hX : xorFold s < 256 := xorFold_lt s hs
  have hfmt := fmt02X_eq (xorFold s) hX
  have hd1 : hexDigit (xorFold s / 16) ≠ 94 :=
    hexDigit_ne_94 _ (Nat.div_lt_of_lt_mul (by omega))
  have hd2 : hexDigit (xorFold s % 16) ≠ 94 :=
    hexDigit_ne_94 _ (Nat.mod_lt _ (by omega))
  have happ : append_checksum s =
      s ++ [94, hexDigit (xorFold s / 16), hexDigit (xorFold s % 16)] := by
    rw [append_checksum, calculate_checksum, hfmt]
    rfl
  have htail : pyRfind 94 [94, hexDigit (xorFold s / 16), hexDigit (xorFold s % 16)]
      = some 0 := by
    rw [pyRfind, pyRfind, pyRfind, pyRfind]
    simp [hd1, hd2]
  have hfind : pyRfind 94 (append_checksum s) = some s.length := by
    rw [happ]
    simpa using pyRfind_append_of_some 94 s _ 0 htail
  rw [verify_checksum]
  simp only [RAPI_CHECKSUM_PREFIX] at hfind ⊢
  rw [hfind]
  dsimp only
  have htake : (append_checksum s).take s.length = s := by
    rw [happ]
    exact List.take_left _ _
  have hdrop : ((append_checksum s).drop (s.length + 1)).take 2 =
      [hexDigit (xorFold s / 16), hexDigit (xorFold s % 16)] := by
    rw [happ]
    rw [List.drop_append]
    rfl
  rw [htake, hdrop, calculate_checksum, hfmt]
  simp [RAPI_CHECKSUM_PREFIX]

/-- XOR cancellation. -/
theorem xor_left_cancel {x a b : Nat} (h : x ^^^ a = x ^^^ b) : a = b := by
  have h2 := congrArg (fun t => x ^^^ t) h
  simpa [← Nat.xor_assoc, Nat.xor_self, Nat.zero_xor] using h2

/-- A single-character edit that changes the ordinal changes the
computed checksum string. -/
theorem checksum_edit (pre post : List Nat) (a b : Nat)
    (hpre : ∀ c ∈ pre, c < 256) (hpost : ∀ c ∈ post, c < 256)
    (ha : a < 256) (hb : b < 256) (hne : a ≠ b) :
    calculate_checksum (pre ++ a :: post) ≠ calculate_checksum (pre ++ b :: post) := by
  have hXa : xorFold (pre ++ a :: post) = xorFold pre ^^^ (a ^^^ xorFold post) := by
    rw [xorFold_append, xorFold_cons]
  have hXb : xorFold (pre ++ b :: post) = xorFold pre ^^^ (b ^^^ xorFold post) := by
    rw [xorFold_append, xorFold_cons]
  have hmema : ∀ c ∈ pre ++ a :: post, c < 256 := by
    intro c hc
    rcases List.mem_append.mp hc with h | h
    · exact hpre c h
    · rcases List.mem_cons.mp h with rfl | h
      · exact ha
      · exact hpost c h
  have hmemb : ∀ c ∈ pre ++ b :: post, c < 256 := by
    intro c hc
    rcases List.mem_append.mp hc with h | h
    · exact hpre c h
    · rcases List.mem_cons.mp h with rfl | h
      · exact hb
      · exact hpost c h
  have hlta := xorFold_lt _ hmema
  have hltb := xorFold_lt _ hmemb
  intro h
  rw [calculate_checksum, calculate_checksum,
      fmt02X_eq _ hlta, fmt02X_eq _ hltb] at h
  simp only [List.cons.injEq] at h
  obtain ⟨-, h1, h2, -⟩ := h
  have hdiva : xorFold (pre ++ a :: post) / 16 < 16 := by omega
  have hdivb : xorFold (pre ++ b :: post) / 16 < 16 := by omega
  have hmoda : xorFold (pre ++ a :: post) % 16 < 16 := Nat.mod_lt _ (by omega)
  have hmodb : xorFold (pre ++ b :: post) % 16 < 16 := Nat.mod_lt _ (by omega)
  have e1 := hexDigit_inj _ _ hdiva hdivb h1
  have e2 := hexDigit_inj _ _ hmoda hmodb h2
  have hXeq : xorFold (pre ++ a :: post) = xorFold (pre ++ b :: post) := by omega
  rw [hXa, hXb] at hXeq
  have hax := xor_left_cancel hXeq
  have h3 : xorFold post ^^^ a = xorFold post ^^^ b := by
    rw [Nat.xor_comm _ a, Nat.xor_comm _ b]
    exact hax
  exact hne (xor_left_cancel h3)

/-- C4 (counterexample): the round trip is claimed for every string, but
Python strings are not limited to latin-1: for `s = "Ā"` (one character of
ordinal 256) the checksum formats as three hex digits (`"^100"`) while
verification reads back only two, so
`verify_checksum(append_checksum(s))` is `False`. -/
theorem claim_C4_counterexample :
    verify_checksum (append_checksum [256]) = false := by
  simp [append_checksum, calculate_checksum, verify_checksum, xorFold, fmt02X,
    pyRfind, RAPI_CHECKSUM_PREFIX, hexChars, hexDigit]

/-- C4 (amended): for every string of latin-1 characters (ordinals < 256
— all that the transport, which decodes latin-1, can ever deliver),
`verify_checksum(append_checksum(s))` is true; and every single-character
edit (within latin-1) that changes the character's ordinal changes the
computed checksum. -/
theorem claim_C4_amended :
    (∀ s : List Nat, (∀ c ∈ s, c < 256) →
      verify_checksum (append_checksum s) = true) ∧
    (∀ (pre post : List Nat) (a b : Nat),
      (∀ c ∈ pre, c < 256) → (∀ c ∈ post, c < 256) → a < 256 → b < 256 →
      a ≠ b →
      calculate_checksum (pre ++ a :: post) ≠
        calculate_checksum (pre ++ b :: post)) :=
  ⟨verify_append, checksum_edit⟩

/-- C4 witness: the round trip on `"$GC"` and an edit of its middle
character (`G` → `H`). -/
theorem claim_C4_witness :
    verify_checksum (append_checksum [36, 71, 67]) = true ∧
    calculate_checksum ([36] ++ 71 :: [67]) ≠
      calculate_checksum ([36] ++ 72 :: [67]) :=
  ⟨claim_C4_amended.1 [36, 71, 67] (by decide),
   claim_C4_amended.2 [36] [67] 71 72 (by decide) (by decide) (by decide)
     (by decide) (by decide)⟩

end OpenEVSE

namespace OpenEVSE

/-! ## Line framing (claim C9) -/

/-- `str.find` (single character) returns the first occurrence. -/
theorem pyFind_eq_some_iff (c : Nat) (s : List Nat) (i : Nat) :
    pyFind c s = some i ↔
      (s.get? i = some c ∧ ∀ j, j < i → s.get? j ≠ some c) := by
  induction s generalizing i with
  | nil => simp [pyFind]
  | cons x xs ih =>
      rw [pyFind]
      by_cases hx : x = c
      · subst hx
        constructor
        · intro h
          simp at h
          subst h
          simp
        · intro ⟨h1, h2⟩
          cases i with
          | zero => simp
          | succ k =>
              exfalso
              exact h2 0 (by omega) (by simp)
      · rw [if_neg hx]
        cases i with
        | zero => simp [Option.map_eq_some', hx]
        | succ k =>
            simp only [Option.map_eq_some']
            constructor
            · rintro ⟨a, ha, hak⟩
              have hak2 : a = k := by omega
              rw [hak2] at ha
              have := (ih k).mp ha
              refine ⟨by simpa using this.1, ?_⟩
              intro j hj
              cases j with
              | zero => simp [hx]
              | succ m => simpa using this.2 m (by omega)
            · rintro ⟨h1, h2⟩
              refine ⟨k, (ih k).mpr ⟨by simpa using h1, ?_⟩, rfl⟩
              intro m hm
              simpa using h2 (m + 1) (by omega)

/-- `str.find` (single character) misses exactly when absent. -/
theorem pyFind_eq_none_iff (c : Nat) (s : List Nat) :
    pyFind c s = none ↔ ∀ j, s.get? j ≠ some c := by
  induction s with
  | nil => simp [pyFind]
  | cons x xs ih =>
      rw [pyFind]
      by_cases hx : x = c
      · simp only [if_pos hx]
        constructor
        · intro h; cases h
        · intro h
          exact absurd (by simp [hx]) (h 0)
      · rw [if_neg hx]
        simp only [Option.map_eq_none']
        rw [ih]
        constructor
        · intro h j
          cases j with
          | zero => simp [hx]
          | succ m => simpa using h m
        · intro h m
          simpa using h (m + 1)

/-- The read loops slice at the EARLIEST terminator: `findLineEnd`
returns exactly the position of the first `\r` (13) or `\n` (10),
whichever occurs first — either terminator alone is sufficient, and
neither kind has priority over the other. -/
theorem findLineEnd_spec (buf : List Nat) (e : Nat) :
    findLineEnd buf = some e ↔
      ((buf.get? e = some 13 ∨ buf.get? e = some 10) ∧
        ∀ j, j < e → buf.get? j ≠ some 13 ∧ buf.get? j ≠ some 10) := by
  unfold findLineEnd
  cases hcr : pyFind 13 buf with
  | none =>
      have hcr' := (pyFind_eq_none_iff 13 buf).mp hcr
      cases hlf : pyFind 10 buf with
      | none =>
          have hlf' := (pyFind_eq_none_iff 10 buf).mp hlf
          simp only
          constructor
          · intro h; cases h
          · rintro ⟨h1 | h1, -⟩
            · exact absurd h1 (hcr' e)
            · exact absurd h1 (hlf' e)
      | some lf_pos =>
          have hlf' := (pyFind_eq_some_iff 10 buf lf_pos).mp hlf
          simp only [Option.some.injEq]
          constructor
          · rintro rfl
            exact ⟨Or.inr hlf'.1, fun j hj => ⟨hcr' j, hlf'.2 j hj⟩⟩
          · rintro ⟨h1 | h1, h2⟩
            · exact absurd h1 (hcr' e)
            · by_contra hne
              rcases Nat.lt_or_ge lf_pos e with hlt | hge
              · exact (h2 lf_pos hlt).2 hlf'.1
              · exact hlf'.2 e (by omega) h1
  | some cr_pos =>
      have hcr' := (pyFind_eq_some_iff 13 buf cr_pos).mp hcr
      cases hlf : pyFind 10 buf with
      | none =>
          have hlf' := (pyFind_eq_none_iff 10 buf).mp hlf
          simp only [Option.some.injEq]
          constructor
          · rintro rfl
            exact ⟨Or.inl hcr'.1, fun j hj => ⟨hcr'.2 j hj, hlf' j⟩⟩
          · rintro ⟨h1 | h1, h2⟩
            · by_contra hne
              rcases Nat.lt_or_ge cr_pos e with hlt | hge
              · exact (h2 cr_pos hlt).1 hcr'.1
              · exact hcr'.2 e (by omega) h1
            · exact absurd h1 (hlf' e)
      | some lf_pos =>
          have hlf' := (pyFind_eq_some_iff 10 buf lf_pos).mp hlf
          simp only [Option.some.injEq]
          constructor
          · rintro rfl
            rcases Nat.le_total cr_pos lf_pos with hle | hle
            · rw [min_eq_left hle]
              exact ⟨Or.inl hcr'.1,
                fun j hj => ⟨hcr'.2 j hj, hlf'.2 j (by omega)⟩⟩
            · rw [min_eq_right hle]
              exact ⟨Or.inr hlf'.1,
                fun j hj => ⟨hcr'.2 j (by omega), hlf'.2 j hj⟩⟩
          · rintro ⟨h1, h2⟩
            have hcrge : e ≤ cr_pos := by
              by_contra hgt
              exact (h2 cr_pos (by omega)).1 hcr'.1
            have hlfge : e ≤ lf_pos := by
              by_contra hgt
              exact (h2 lf_pos (by omega)).2 hlf'.1
            rcases h1 with h1 | h1
            · have : cr_pos ≤ e := by
                by_contra hgt
                exact hcr'.2 e (by omega) h1
              omega
            · have : lf_pos ≤ e := by
                by_contra hgt
                exact hlf'.2 e (by omega) h1
              omega

/-- The imperative read loop equals the pure framer: the bytes written
back are the callback responses, concatenated verbatim and in order, for
exactly those sliced lines whose `strip()` is non-empty; the leftover
partial line is kept. -/
theorem processBuffer_eq_frameLines (cb : List Nat → List Nat) (buf : List Nat) :
    processBuffer cb buf =
      ((((frameLines buf).1.filter
          (fun l => !(pyStrip l).isEmpty)).map cb).flatten,
       (frameLines buf).2) := by
  generalize hn : buf.length = n
  induction n using Nat.strong_induction_on generalizing buf with
  | _ n ih =>
    rw [processBuffer.eq_def, frameLines.eq_def]
    cases hfe : findLineEnd buf with
    | none => simp
    | some e =>
        have hlt := findLineEnd_lt_length hfe
        have hrec := ih (buf.drop (e + 1)).length
          (by simp only [List.length_drop]; omega) (buf.drop (e + 1)) rfl
        dsimp only
        rw [hrec]
        by_cases hstrip : pyStrip (buf.take (e + 1)) = []
        · simp [hstrip]
        · simp [hstrip]

/-- The loop drains the buffer: the leftover contains no terminator. -/
theorem frameLines_rem_no_terminator (buf : List Nat) :
    findLineEnd (frameLines buf).2 = none := by
  generalize hn : buf.length = n
  induction n using Nat.strong_induction_on generalizing buf with
  | _ n ih =>
    rw [frameLines.eq_def]
    cases hfe : findLineEnd buf with
    | none => exact hfe
    | some e =>
        have hlt := findLineEnd_lt_length hfe
        have hrec := ih (buf.drop (e + 1)).length
          (by simp only [List.length_drop]; omega) (buf.drop (e + 1)) rfl
        dsimp only
        exact hrec

/-- C9 (counterexample): with buffer `"a\nb\r"` both a CR (position 3)
and an LF (position 1) are pending, and the framer slices at the LF — the
first line extracted is `"a\n"`, not the CR-priority slice `"a\nb\r"` —
refuting "CR takes priority over LF when both are pending". -/
theorem claim_C9_counterexample :
    findLineEnd [97, 10, 98, 13] = some 1 ∧
    pyFind 13 [97, 10, 98, 13] = some 3 ∧
    (1 : Nat) ≠ 3 ∧
    (frameLines [97, 10, 98, 13]).1 = [[97, 10], [98, 13]] := by
  refine ⟨by decide, by decide, by decide, ?_⟩
  simp [frameLines, findLineEnd, pyFind]

/-- C9 (amended): the framer slices a complete line at the first `\r` or
`\n` — the EARLIEST terminator of either kind wins (not CR priority), and
either alone is sufficient; each sliced line whose `strip()` is non-empty
is passed to the data callback, the responses are written back verbatim
in order, and the leftover (terminator-free) tail stays buffered. -/
theorem claim_C9_amended :
    (∀ (buf : List Nat) (e : Nat),
      findLineEnd buf = some e ↔
        ((buf.get? e = some 13 ∨ buf.get? e = some 10) ∧
          ∀ j, j < e → buf.get? j ≠ some 13 ∧ buf.get? j ≠ some 10)) ∧
    (∀ (cb : List Nat → List Nat) (buf : List Nat),
      processBuffer cb buf =
        ((((frameLines buf).1.filter
            (fun l => !(pyStrip l).isEmpty)).map cb).flatten,
         (frameLines buf).2)) ∧
    (∀ buf : List Nat, findLineEnd (frameLines buf).2 = none) :=
  ⟨findLineEnd_spec, processBuffer_eq_frameLines, frameLines_rem_no_terminator⟩

/-- C9 witness: the characterization applied at `"a\r"`, position 1. -/
theorem claim_C9_witness :
    findLineEnd [97, 13] = some 1 :=
  (claim_C9_amended.1 [97, 13] 1).mpr (by decide)

end OpenEVSE

namespace OpenEVSE

/-! ## RAPI dispatch pipeline (claims C5, C6) -/

/-- `dropWhile` keeps a list whose head fails the predicate. -/
theorem dropWhile_append_head (p : Nat → Bool) (xs ys : List Nat)
    (hx : xs ≠ []) (hhead : ∀ r rs, xs = r :: rs → p r = false) :
    (xs ++ ys).dropWhile p = xs ++ ys := by
  cases xs with
  | nil => exact absurd rfl hx
  | cons r rs =>
      rw [List.cons_append, List.dropWhile_cons, hhead r rs rfl]
      simp

theorem pyStrip_sc (pre t : List Nat) (hpre1 : pre ≠ [])
    (hprehead : ∀ r rs, pre = r :: rs → isPySpace r = false)
    (ht : t ≠ []) (hns : ∀ c ∈ t, isPySpace c = false) :
    pyStrip (pre ++ t ++ [13]) = pre ++ t := by
  unfold pyStrip
  have hfront : ((pre ++ t ++ [13]).dropWhile isPySpace) = pre ++ t ++ [13] := by
    rw [List.append_assoc]
    exact dropWhile_append_head _ _ _ hpre1 hprehead
  rw [hfront]
  have hrev : (pre ++ t ++ [13]).reverse = 13 :: (t.reverse ++ pre.reverse) := by
    simp
  rw [hrev]
  rw [List.dropWhile_cons]
  have h13 : isPySpace 13 = true := by decide
  rw [h13]
  simp only [if_true]
  have htr : t.reverse ≠ [] := by simpa using ht
  have hback : (t.reverse ++ pre.reverse).dropWhile isPySpace =
      t.reverse ++ pre.reverse := by
    refine dropWhile_append_head _ _ _ htr ?_
    intro r rs hr
    have : r ∈ t.reverse := by rw [hr]; simp
    exact hns r (List.mem_reverse.mp this)
  rw [hback]
  simp

theorem splitWsAux_nospace_append (xs ys acc : List Nat)
    (h : ∀ c ∈ xs, isPySpace c = false) :
    splitWsAux (xs ++ ys) acc = splitWsAux ys (xs.reverse ++ acc) := by
  induction xs generalizing acc with
  | nil => simp
  | cons x xs ih =>
      rw [List.cons_append, splitWsAux]
      rw [h x (by simp)]
      simp only [Bool.false_eq_true, if_false]
      rw [ih _ (fun c hc => h c (by simp [hc]))]
      simp

theorem splitWs_single_token (t : List Nat) (ht : t ≠ [])
    (h : ∀ c ∈ t, isPySpace c = false) :
    splitWsAux t [] = [t] := by
  have h1 := splitWsAux_nospace_append t [] [] h
  rw [List.append_nil] at h1
  rw [h1, splitWsAux]
  rw [if_neg (by simpa using ht)]
  simp

theorem splitWs_sc (t : List Nat) (ht : t ≠ [])
    (h : ∀ c ∈ t, isPySpace c = false) :
    splitWs ([83, 67, 32] ++ t) = [[83, 67], t] := by
  unfold splitWs
  have h1 : ([83, 67, 32] ++ t) = [83, 67] ++ (32 :: t) := by simp
  rw [h1, splitWsAux_nospace_append [83, 67] (32 :: t) [] (by decide)]
  rw [splitWsAux]
  rw [show isPySpace 32 = true by decide]
  simp only [if_true]
  rw [if_neg (by decide)]
  rw [splitWs_single_token t ht h]
  rfl


theorem processCommandWith_SC (st : RAPIState) (t : List Nat)
    (hecho : st.evse.echo_enabled = false)
    (ht : t ≠ [])
    (hns : ∀ c ∈ t, isPySpace c = false)
    (h94 : (94 : Nat) ∉ t) :
    processCommandWith commandsModel st ([36, 83, 67, 32] ++ t ++ [13]) =
      match cmdSetCurrent st [t] with
      | .ok (resp, st2) => (append_checksum resp ++ RAPI_LINE_ENDING, st2)
      | .error _ => (append_checksum RAPI_ERROR_RESPONSE ++ RAPI_LINE_ENDING, st) := by
  have hstrip : pyStrip ([36, 83, 67, 32] ++ t ++ [13]) = [36, 83, 67, 32] ++ t := by
    refine pyStrip_sc [36, 83, 67, 32] t (by decide) ?_ ht hns
    intro r rs h
    cases h
    decide
  have hr1 : pyRfind 94 ([36, 83, 67, 32] ++ t) = none := by
    refine pyRfind_eq_none _ _ ?_
    simp [h94]
  have hverify : verify_checksum ([36, 83, 67, 32] ++ t) = true := by
    rw [verify_checksum]
    simp only [RAPI_CHECKSUM_PREFIX]
    rw [hr1]
  have hr2 : pyRfind 94 ([83, 67, 32] ++ t) = none := by
    refine pyRfind_eq_none _ _ ?_
    simp [h94]
  have hsplit := splitWs_sc t ht hns
  unfold processCommandWith
  dsimp only
  rw [hstrip]
  split
  · rename_i hcond
    exact absurd (by simp) hcond
  · split
    · rename_i hcond
      exact absurd hverify (by simpa using hcond.1)
    · rw [show (List.drop 1 ([36, 83, 67, 32] ++ t)) = [83, 67, 32] ++ t from rfl]
      rw [show RAPI_CHECKSUM_PREFIX = 94 from rfl, hr2]
      dsimp only
      rw [hsplit]
      dsimp only
      rw [show ([83, 67].map upperChar) = [83, 67] from by decide]
      rw [hecho]
      simp only [Bool.false_eq_true, if_false]
      rw [show commandsModel [83, 67] = some cmdSetCurrent from rfl]
      dsimp only
      cases h : cmdSetCurrent st [t] with
      | ok r =>
          obtain ⟨resp, st2⟩ := r
          simp
      | error e => simp


theorem processCommandWith_SC_noarg (st : RAPIState)
    (hecho : st.evse.echo_enabled = false) :
    processCommandWith commandsModel st [36, 83, 67, 13] =
      (append_checksum RAPI_ERROR_RESPONSE ++ RAPI_LINE_ENDING, st) := by
  unfold processCommandWith
  dsimp only
  rw [show pyStrip [36, 83, 67, 13] = [36, 83, 67] from by decide]
  split
  · rename_i hcond
    exact absurd (by simp) hcond
  · split
    · rename_i hcond
      exact absurd (show verify_checksum [36, 83, 67] = true from by decide)
        (by simpa using hcond.1)
    · rw [show (List.drop 1 [36, 83, 67]) = [83, 67] from rfl]
      rw [show pyRfind RAPI_CHECKSUM_PREFIX [83, 67] = none from by decide]
      dsimp only
      rw [show splitWs [83, 67] = [[83, 67]] from by decide]
      dsimp only
      rw [show ([83, 67].map upperChar) = [83, 67] from by decide]
      rw [hecho]
      simp only [Bool.false_eq_true, if_false]
      rw [show commandsModel [83, 67] = some cmdSetCurrent from rfl]
      dsimp only
      rfl

theorem processCommandWith_throw (tbl : List Nat → Option RAPIHandlerFn)
    (st : RAPIState) (hfail : RAPIHandlerFn)
    (hecho : st.evse.echo_enabled = false)
    (htbl : tbl [88, 88] = some hfail)
    (hthrow : ∀ s p, hfail s p = Except.error ()) :
    processCommandWith tbl st [36, 88, 88, 13] =
      (append_checksum RAPI_ERROR_RESPONSE ++ RAPI_LINE_ENDING, st) := by
  unfold processCommandWith
  dsimp only
  rw [show pyStrip [36, 88, 88, 13] = [36, 88, 88] from by decide]
  split
  · rename_i hcond
    exact absurd (by simp) hcond
  · split
    · rename_i hcond
      exact absurd (show verify_checksum [36, 88, 88] = true from by decide)
        (by simpa using hcond.1)
    · rw [show (List.drop 1 [36, 88, 88]) = [88, 88] from rfl]
      rw [show pyRfind RAPI_CHECKSUM_PREFIX [88, 88] = none from by decide]
      dsimp only
      rw [show splitWs [88, 88] = [[88, 88]] from by decide]
      dsimp only
      rw [show ([88, 88].map upperChar) = [88, 88] from by decide]
      rw [hecho]
      simp only [Bool.false_eq_true, if_false]
      rw [htbl]
      dsimp only
      rw [hthrow st []]
      rfl

theorem cmdSetCurrent_total (st : RAPIState) (params : List (List Nat)) :
    ∃ r, cmdSetCurrent st params = Except.ok r := by
  cases params with
  | nil => exact ⟨_, rfl⟩
  | cons p ps =>
      simp only [cmdSetCurrent]
      cases hp : pyInt p with
      | none => exact ⟨_, rfl⟩
      | some amps =>
          dsimp only
          split_ifs <;> exact ⟨_, rfl⟩

end OpenEVSE

namespace OpenEVSE

/-- C5 (confirmed): for the RAPI SC command (echo off, the default):
`$SC <tok>` with a token parsing to an integer `amps` in `6..80` answers
`$OK` (checksummed, CR-terminated) and sets `current_capacity_amps` to
exactly `amps`; out-of-range, non-numeric, or missing arguments answer
`$NK` and leave the state unchanged; `_cmd_set_current` itself never
raises (its `int()` failure is caught inside), and any handler that does
raise is converted to `$NK` at the dispatch boundary. -/
theorem claim_C5 :
    (∀ (st : RAPIState) (t : List Nat) (amps : ℤ),
      st.evse.echo_enabled = false →
      t ≠ [] →
      (∀ c ∈ t, isPySpace c = false) →
      (94 : Nat) ∉ t →
      pyInt t = some amps →
      (6 ≤ amps ∧ amps ≤ 80 →
        processCommandWith commandsModel st ([36, 83, 67, 32] ++ t ++ [13]) =
          (append_checksum RAPI_OK_RESPONSE ++ RAPI_LINE_ENDING,
           { st with evse := currentCapacitySetter st.evse amps }) ∧
        (currentCapacitySetter st.evse amps).current_capacity_amps = amps) ∧
      (amps < 6 ∨ 80 < amps →
        processCommandWith commandsModel st ([36, 83, 67, 32] ++ t ++ [13]) =
          (append_checksum RAPI_ERROR_RESPONSE ++ RAPI_LINE_ENDING, st))) ∧
    (∀ (st : RAPIState) (t : List Nat),
      st.evse.echo_enabled = false →
      t ≠ [] →
      (∀ c ∈ t, isPySpace c = false) →
      (94 : Nat) ∉ t →
      pyInt t = none →
      processCommandWith commandsModel st ([36, 83, 67, 32] ++ t ++ [13]) =
        (append_checksum RAPI_ERROR_RESPONSE ++ RAPI_LINE_ENDING, st)) ∧
    (∀ st : RAPIState, st.evse.echo_enabled = false →
      processCommandWith commandsModel st [36, 83, 67, 13] =
        (append_checksum RAPI_ERROR_RESPONSE ++ RAPI_LINE_ENDING, st)) ∧
    (∀ (st : RAPIState) (params : List (List Nat)),
      ∃ r, cmdSetCurrent st params = Except.ok r) ∧
    (∀ (tbl : List Nat → Option RAPIHandlerFn) (st : RAPIState)
        (hfail : RAPIHandlerFn),
      st.evse.echo_enabled = false →
      tbl [88, 88] = some hfail →
      (∀ s p, hfail s p = Except.error ()) →
      processCommandWith tbl st [36, 88, 88, 13] =
        (append_checksum RAPI_ERROR_RESPONSE ++ RAPI_LINE_ENDING, st)) := by
  refine ⟨?_, ?_, ?_, ?_, ?_⟩
  · intro st t amps hecho ht hns h94 hpy
    constructor
    · intro ⟨h6, h80⟩
      have hc : cmdSetCurrent st [t] = Except.ok (RAPI_OK_RESPONSE,
          { st with evse := currentCapacitySetter st.evse amps }) := by
        simp only [cmdSetCurrent, hpy]
        rw [if_neg (by omega)]
      constructor
      · rw [processCommandWith_SC st t hecho ht hns h94, hc]
      · simp only [currentCapacitySetter]
        omega
    · intro hout
      have hc : cmdSetCurrent st [t] = Except.ok (RAPI_ERROR_RESPONSE, st) := by
        simp only [cmdSetCurrent, hpy]
        rw [if_pos (by omega)]
      rw [processCommandWith_SC st t hecho ht hns h94, hc]
  · intro st t hecho ht hns h94 hpy
    have hc : cmdSetCurrent st [t] = Except.ok (RAPI_ERROR_RESPONSE, st) := by
      simp only [cmdSetCurrent, hpy]
    rw [processCommandWith_SC st t hecho ht hns h94, hc]
  · exact processCommandWith_SC_noarg
  · exact cmdSetCurrent_total
  · intro tbl st hfail hecho htbl hthrow
    exact processCommandWith_throw tbl st hfail hecho htbl hthrow

/-- C5 witness: `"$SC 16\r"` sets 16 and answers `$OK`; `"$SC 5\r"` and
`"$SC a\r"` and `"$SC\r"` answer `$NK` unchanged; a throwing handler in
the table is converted to `$NK`. -/
theorem claim_C5_witness :
    (processCommandWith commandsModel (initRAPI initEVSE (initEV 75 8) false)
        ([36, 83, 67, 32] ++ [49, 54] ++ [13]) =
      (append_checksum RAPI_OK_RESPONSE ++ RAPI_LINE_ENDING,
       { initRAPI initEVSE (initEV 75 8) false with
          evse := currentCapacitySetter initEVSE 16 }) ∧
      (currentCapacitySetter initEVSE 16).current_capacity_amps = 16) ∧
    (processCommandWith commandsModel (initRAPI initEVSE (initEV 75 8) false)
        ([36, 83, 67, 32] ++ [53] ++ [13]) =
      (append_checksum RAPI_ERROR_RESPONSE ++ RAPI_LINE_ENDING,
       initRAPI initEVSE (initEV 75 8) false)) ∧
    (processCommandWith commandsModel (initRAPI initEVSE (initEV 75 8) false)
        ([36, 83, 67, 32] ++ [97] ++ [13]) =
      (append_checksum RAPI_ERROR_RESPONSE ++ RAPI_LINE_ENDING,
       initRAPI initEVSE (initEV 75 8) false)) ∧
    (processCommandWith commandsModel (initRAPI initEVSE (initEV 75 8) false)
        [36, 83, 67, 13] =
      (append_checksum RAPI_ERROR_RESPONSE ++ RAPI_LINE_ENDING,
       initRAPI initEVSE (initEV 75 8) false)) ∧
    (∃ r, cmdSetCurrent (initRAPI initEVSE (initEV 75 8) false) [[120]] =
      Except.ok r) ∧
    (processCommandWith
        (fun c => if c = [88, 88] then
          some (fun _ _ => Except.error ()) else none)
        (initRAPI initEVSE (initEV 75 8) false) [36, 88, 88, 13] =
      (append_checksum RAPI_ERROR_RESPONSE ++ RAPI_LINE_ENDING,
       initRAPI initEVSE (initEV 75 8) false)) :=
  ⟨(claim_C5.1 (initRAPI initEVSE (initEV 75 8) false) [49, 54] 16 rfl
      (by decide) (by decide) (by decide) (by decide)).1 (by decide),
   (claim_C5.1 (initRAPI initEVSE (initEV 75 8) false) [53] 5 rfl
      (by decide) (by decide) (by decide) (by decide)).2 (by decide),
   claim_C5.2.1 (initRAPI initEVSE (initEV 75 8) false) [97] rfl
      (by decide) (by decide) (by decide) (by decide),
   claim_C5.2.2.1 (initRAPI initEVSE (initEV 75 8) false) rfl,
   claim_C5.2.2.2.1 (initRAPI initEVSE (initEV 75 8) false) [[120]],
   claim_C5.2.2.2.2 (fun c => if c = [88, 88] then
        some (fun _ _ => Except.error ()) else none)
      (initRAPI initEVSE (initEV 75 8) false) (fun _ _ => Except.error ())
      rfl (by simp) (fun _ _ => rfl)⟩

/-- C6 (code-bug evidence): processing `"$GC\r"` on a fresh handler
returns `"$OK 32^01\r"` — a single data value, the current capacity —
whereas the spec and the repository's own test
(`test_rapi.py::test_get_current_capacity`, which asserts
`startswith("$OK 6 80 32 32")`) require four values
`min hw pilot configured`. -/
theorem claim_C6_gc_single_value :
    processCommandWith commandsModel (initRAPI initEVSE (initEV 75 8) false)
      [36, 71, 67, 13] =
      ([36, 79, 75, 32, 51, 50, 94, 48, 49, 13],
       initRAPI initEVSE (initEV 75 8) false) := by
  unfold processCommandWith
  dsimp only
  rw [show pyStrip [36, 71, 67, 13] = [36, 71, 67] from by decide]
  split
  · rename_i hcond
    exact absurd (by simp) hcond
  · split
    · rename_i hcond
      exact absurd (show verify_checksum [36, 71, 67] = true from by decide)
        (by simpa using hcond.1)
    · rw [show (List.drop 1 [36, 71, 67]) = [71, 67] from rfl]
      rw [show pyRfind RAPI_CHECKSUM_PREFIX [71, 67] = none from by decide]
      dsimp only
      rw [show splitWs [71, 67] = [[71, 67]] from by decide]
      dsimp only
      rw [show ([71, 67].map upperChar) = [71, 67] from by decide]
      rw [show (initRAPI initEVSE (initEV 75 8) false).evse.echo_enabled = false
        from rfl]
      simp only [Bool.false_eq_true, if_false]
      rw [show commandsModel [71, 67] = some cmdGetCurrentCapacity from rfl]
      dsimp only
      rw [show cmdGetCurrentCapacity (initRAPI initEVSE (initEV 75 8) false) [] =
        Except.ok (RAPI_OK_RESPONSE ++ [32] ++ intToDec 32,
          initRAPI initEVSE (initEV 75 8) false) from rfl]
      dsimp only
      simp [intToDec, natToDec, append_checksum, calculate_checksum, xorFold,
        fmt02X, hexChars, hexDigit, RAPI_OK_RESPONSE, RAPI_LINE_ENDING,
        RAPI_CHECKSUM_PREFIX]

end OpenEVSE
